import Mathlib

/-!
Verification of the quantitative backtesting core in
`src/app/model_backtester.py` (class `ModelBacktester`).

The development shallowly embeds the numeric pipeline of that module:

* `calculate_optimal_weights` — the portfolio weighting pipeline of
  `ModelBacktester._calculate_optimal_weights` (lines 1614-1660),
  parametrised over the per-asset annualized volatilities and the pairwise
  correlation matrix.  In the source those two inputs are
  `sqrt(252) * returns.std()` and `returns.corr()` (lines 1625-1629); both
  involve real square roots, so the embedding takes them as parameters and
  ties them to concrete rational return series through the decidable
  predicates `IsVolOf` / `IsCorrOf` (`v*v = 252 * var`, Pearson equation).
* the drawdown / CAGR metric block of `calculate_portfolio_metrics`
  (lines 1562-1576).
* the market-regime classification block of `backtest` (lines 986-1031).
* `generate_signals` (lines 101-946), over rational prediction series, with
  the pandas rolling standard deviation series (again a square root) as a
  parameter.
* the signal/index alignment block of `backtest` (lines 1205-1237) and the
  orchestration control flow of `backtest` (lines 948-1296), with the
  external collaborators (data handler, model, trade simulator) abstracted
  into an environment record.

All rational arithmetic is exact; Python float rounding is not modelled.
Division in ℚ is Lean's total division (`x / 0 = 0`); every place where the
source could divide by zero is either guarded in the source or noted in a
comment at the corresponding definition.
-/

set_option linter.unusedVariables false

namespace ModelBacktester

/-! ## Generic list helpers -/

/-- numpy `np.clip x lo hi` / pandas `Series.clip(lo, hi)`:
`min (max x lo) hi` (the lower bound is applied first). -/
def clipQ {K : Type} [LinearOrder K] (lo hi x : K) : K :=
  min (max x lo) hi

/-- Arithmetic mean of a list; `0` for the empty list (pandas returns NaN
there; every use below is guarded to non-empty lists). -/
def listMean {K : Type} [Field K] (l : List K) : K :=
  l.sum / (l.length : K)

/-- Minimum of a list, `0` for the empty list (pandas `Series.min()`;
all uses are on non-empty series). -/
def listMin {K : Type} [LinearOrder K] [Zero K] : List K → K
  | [] => 0
  | h :: t => t.foldl min h

/-- Maximum of a list, `0` for the empty list. -/
def listMax {K : Type} [LinearOrder K] [Zero K] : List K → K
  | [] => 0
  | h :: t => t.foldl max h

/-- numpy `np.sign`: `1`, `-1` or `0`. -/
def signQ {K : Type} [LinearOrderedField K] (x : K) : K :=
  if 0 < x then 1 else if x < 0 then -1 else 0

/-- Indicator of a boolean as a number (numpy bool-to-float cast). -/
def b2q {K : Type} [LinearOrderedField K] (b : Bool) : K :=
  if b then 1 else 0

/-- pandas sample mean of a series (used inside `std`/`cov`/`corr`). -/
def sampleMean (l : List ℚ) : ℚ := listMean l

/-- pandas sample variance with `ddof = 1` (the default of
`Series.std()` / rolling `std()`); junk value `0` when fewer than two
observations (pandas yields NaN there — call sites only use windows with
at least 2 entries or handle the NaN case separately). -/
def sampleVar (l : List ℚ) : ℚ :=
  if l.length ≤ 1 then 0
  else ((l.map (fun x => (x - sampleMean l) * (x - sampleMean l))).sum) / ((l.length : ℚ) - 1)

/-- pandas sample covariance with `ddof = 1` of two equally long series. -/
def sampleCov (xs ys : List ℚ) : ℚ :=
  if xs.length ≤ 1 then 0
  else ((List.zip xs ys).map
      (fun p => (p.1 - sampleMean xs) * (p.2 - sampleMean ys))).sum /
      ((xs.length : ℚ) - 1)

/-- Source `v` is the annualized volatility `sqrt(252) * returns.std()` of the
return series `xs` (line 1626 of the source): nonneg square root, stated
as a rational polynomial equation. -/
def IsVolOf (xs : List ℚ) (v : ℚ) : Prop :=
  0 ≤ v ∧ v * v = 252 * sampleVar xs

/-- Source `c` is the Pearson correlation `cov(xs,ys) / (std xs * std ys)` of two
return series (line 1629 of the source, `returns.corr()`), stated without
square roots: `c*c * var xs * var ys = cov*cov` together with the sign of the
covariance.  This pins `c` down uniquely whenever both variances are
nonzero (pandas yields NaN otherwise, which the source skips via its
`np.isfinite` guard). -/
def IsCorrOf (xs ys : List ℚ) (c : ℚ) : Prop :=
  c * c * sampleVar xs * sampleVar ys = sampleCov xs ys * sampleCov xs ys ∧
    (0 ≤ c ↔ 0 ≤ sampleCov xs ys)

/-! ## `_calculate_optimal_weights` (source lines 1614-1660)

The pipeline below `volatilities` / `correlations`:
initial weights `1 / max(vol, 1e-10)`, normalize, pairwise correlation
scaling, normalize, clip to `[0, max_position_size]`, normalize and scale
by `max_portfolio_size`.  Generic over a linear ordered field so that the
same definition covers both exact rational evaluation and the real-valued
volatilities of an actual run. -/

variable {K : Type} [LinearOrderedField K]

/-- Source `weights / weights.sum()` (lines 1636 and 1654).  Lean's total division
makes this `[0,...]` when the sum is zero; in the source that case yields
NaN and is unreachable for genuine correlation matrices (all entries stay
strictly positive, see `corrAdjust_pos`). -/
def normalizeW (w : List K) : List K :=
  w.map (fun x => x / w.sum)

/-- All ordered index pairs `(i, j)` with `i < j < n`, in the order of the
two nested `for` loops of lines 1639-1640. -/
def pairList (n : ℕ) : List (ℕ × ℕ) :=
  (List.range n).flatMap (fun i => (List.drop (i + 1) (List.range n)).map (fun j => (i, j)))

/-- One step of the correlation adjustment (lines 1641-1651): if the pair's
correlation is finite (`some`) and exceeds the threshold, both weights are
scaled by `max(0, min(1, 1 - (corr - threshold)))`; a NaN correlation
(`none`, the `np.isfinite` guard) leaves the weights unchanged. -/
def corrStep (corrThreshold : K) (corr : ℕ → ℕ → Option K) (w : List K)
    (p : ℕ × ℕ) : List K :=
  match corr p.1 p.2 with
  | none => w
  | some c =>
    if corrThreshold < c then
      let scale := max 0 (min 1 (1 - (c - corrThreshold)))
      w.mapIdx (fun k x => if k = p.1 ∨ k = p.2 then x * scale else x)
    else w

/-- The full pairwise correlation adjustment loop (lines 1639-1651). -/
def corrAdjust (corrThreshold : K) (corr : ℕ → ℕ → Option K) (w : List K) : List K :=
  (pairList w.length).foldl (corrStep corrThreshold corr) w

/-- Source `ModelBacktester._calculate_optimal_weights` (lines 1624-1660) as a
function of the annualized volatility vector and the correlation matrix
(`some` = finite entry, `none` = NaN, skipped by the source's guard).
`corrThreshold`, `maxPositionSize`, `maxPortfolioSize` are the constructor
parameters `correlation_threshold` (default 0.7), `max_position_size`
(default 0.2) and `max_portfolio_size` (default 0.8). -/
def calculate_optimal_weights (corrThreshold maxPositionSize maxPortfolioSize : K)
    (vols : List K) (corr : ℕ → ℕ → Option K) : List K :=
  let w0 := vols.map (fun v => 1 / max v (1 / 10000000000))
  let w1 := normalizeW w0
  let w2 := corrAdjust corrThreshold corr w1
  let w3 := normalizeW w2
  let w4 := w3.map (fun x => clipQ 0 maxPositionSize x)
  (normalizeW w4).map (fun x => x * maxPortfolioSize)

/-! ## Metric block of `calculate_portfolio_metrics` (source lines 1562-1576)

`cumulative_returns = (1 + weighted_returns).cumprod()`,
`peak = cumulative_returns.expanding(min_periods=1).max()`,
`drawdown = (cumulative_returns - peak) / peak`,
`years = len / 252`, `cagr = final ** (1/years) - 1 if years > 0 else 0`,
`max_drawdown = drawdown.min()`.
The input is the (weighted) per-period return series entering that block. -/

/-- Value of the cumulative-return series at index `t`:
product of `1 + r` over the first `t+1` returns (pandas `cumprod`). -/
def cumRet (rets : List ℚ) (t : ℕ) : ℚ :=
  ((rets.take (t + 1)).map (fun r => 1 + r)).prod

/-- Running peak of the cumulative-return series at index `t`
(pandas `expanding(min_periods=1).max()`). -/
def peakAt (rets : List ℚ) (t : ℕ) : ℚ :=
  listMax ((List.range (t + 1)).map (cumRet rets))

/-- Drawdown series value at index `t`: `(cum - peak) / peak`.
The peak is a product of `1 + r` factors; for `r > -1` it is positive, so
the division is genuine there (Lean's junk `x / 0 = 0` is unreachable
under the hypotheses of the theorems below). -/
def drawdownAt (rets : List ℚ) (t : ℕ) : ℚ :=
  (cumRet rets t - peakAt rets t) / peakAt rets t

/-- Source `max_drawdown = drawdown.min()` (line 1572). -/
def max_drawdown (rets : List ℚ) : ℚ :=
  listMin ((List.range rets.length).map (drawdownAt rets))

/-- Source `cagr = final_value ** (1.0/years) - 1.0 if years > 0 else 0.0`
(lines 1567-1569), with `years = len / 252` and
`final_value = cumulative_returns.iloc[-1]`.  The Python float power is the
real power function; its negative-base behaviour (Python promotes to
complex) is outside the scope of the claims, which keep the base
positive. -/
noncomputable def cagr (rets : List ℚ) : ℝ :=
  let years : ℝ := (rets.length : ℝ) / 252
  if 0 < years then
    ((cumRet rets (rets.length - 1) : ℝ)) ^ ((1 : ℝ) / years) - 1
  else 0

/-- The same pipeline with the correlation adjustment of step 2 removed:
the "normalized inverse-volatility baseline with no correlation adjustment"
of the spec (§4.4 step 2 / §8 scenario).  Modelled from the spec's words
for comparison with `calculate_optimal_weights`. -/
def specBaselineWeights (maxPositionSize maxPortfolioSize : K)
    (vols : List K) : List K :=
  let w0 := vols.map (fun v => 1 / max v (1 / 10000000000))
  let w1 := normalizeW w0
  let w3 := normalizeW w1
  let w4 := w3.map (fun x => clipQ 0 maxPositionSize x)
  (normalizeW w4).map (fun x => x * maxPortfolioSize)

/-! ## Market-regime classification block of `backtest` (source lines 984-1031)

The four statistics entering the block are pandas aggregates of the price
history (`trend`, `volatility`, `momentum`, `rsi_avg`, lines 979-982); the
volatility involves a rolling standard deviation (a square root), so the
raw statistics are taken as parameters, with `none` standing for a NaN
aggregate (e.g. a too-short history). -/

/-- Regime labels.  The source uses plain strings; an enumeration keeps
case analysis clean, `regimeString` recovers the source's strings. -/
inductive Regime where
  | bullish
  | bearish
  | sideways
deriving DecidableEq, Repr

/-- The string the source stores in `market_condition` for each regime. -/
def regimeString : Regime → String
  | .bullish => "bullish"
  | .bearish => "bearish"
  | .sideways => "sideways"

/-- Lines 984-1031 of `backtest`: `np.nan_to_num` with neutral defaults
(0, 0.2, 0, 50), `np.clip` to the fixed bounds, the two quality scores,
and the ordered classification rules with the 4-condition fallback
score. -/
def classifyRegime (trendRaw volRaw momRaw rsiRaw : Option ℚ) : Regime :=
  -- np.nan_to_num (lines 986-989), then np.clip (lines 992-995)
  let trend := clipQ (-(1/10)) (1/10) (trendRaw.getD 0)
  let vol := clipQ (1/20) (1/2) (volRaw.getD (1/5))
  let mom := clipQ (-(1/20)) (1/20) (momRaw.getD 0)
  let rsi := clipQ 0 100 (rsiRaw.getD 50)
  -- lines 998-1005
  let trendQuality := (1 - |trend| / (1/10)) * (2/5) + (1 - vol / (1/2)) * (3/10)
    + (1 - |mom| / (1/20)) * (3/10)
  let momentumQuality := 1 - |rsi - 50| / 50
  -- lines 1008-1031, evaluated in order, first match wins
  if trend > 1/500 ∧ vol < 1/4 ∧ mom > 3/10000 ∧ 45 < rsi ∧ rsi < 65 ∧
      trendQuality > 1/2 ∧ momentumQuality > 2/5 then .bullish
  else if trend < -(1/500) ∧ vol > 3/20 ∧
      (mom < -(3/10000) ∨ rsi < 40 ∨ trendQuality < 3/5) then .bearish
  else if |trend| < 1/500 ∧ vol < 1/5 then .sideways
  else
    let bearishScore : ℕ := (if trend < 0 then 1 else 0) + (if vol > 9/50 then 1 else 0)
      + (if mom < 0 then 1 else 0) + (if rsi < 45 then 1 else 0)
    if bearishScore ≥ 3 then .bearish else .sideways

/-- The classification rule as the spec states it (§4.1 steps 2-4 and the
claim text): clip each statistic, replace a non-finite statistic by its
neutral default, form the two quality scores, then apply the ordered
rules.  Written from the spec's words, for comparison with
`classifyRegime`. -/
def specClassifyRegime (trendRaw volRaw momRaw rsiRaw : Option ℚ) : Regime :=
  let trend := (trendRaw.map (clipQ (-(1/10)) (1/10))).getD 0
  let vol := (volRaw.map (clipQ (1/20) (1/2))).getD (1/5)
  let mom := (momRaw.map (clipQ (-(1/20)) (1/20))).getD 0
  let rsi := (rsiRaw.map (clipQ 0 100)).getD 50
  let trendQuality := (2/5) * (1 - |trend| / (1/10)) + (3/10) * (1 - vol / (1/2))
    + (3/10) * (1 - |mom| / (1/20))
  let momentumQuality := 1 - |rsi - 50| / 50
  if trend > 1/500 ∧ vol < 1/4 ∧ mom > 3/10000 ∧ 45 < rsi ∧ rsi < 65 ∧
      trendQuality > 1/2 ∧ momentumQuality > 2/5 then .bullish
  else if trend < -(1/500) ∧ vol > 3/20 ∧
      (mom < -(3/10000) ∨ rsi < 40 ∨ trendQuality < 3/5) then .bearish
  else if |trend| < 1/500 ∧ vol < 1/5 then .sideways
  else
    let score : ℕ := (if trend < 0 then 1 else 0) + (if vol > 9/50 then 1 else 0)
      + (if mom < 0 then 1 else 0) + (if rsi < 45 then 1 else 0)
    if 3 ≤ score then .bearish else .sideways

/-! ## Signal/index alignment block of `backtest` (source lines 1205-1237)

`valid_start = lookback`, `valid_end = len(test_data) - prediction_window`,
`valid_index = test_data.index[valid_start:valid_end]`.  If the signal
length differs from `len(valid_index)`, the start index is recomputed
(`valid_start + sequence_length - 1` for sequential models, `valid_start`
otherwise) and `end_idx = min(len - prediction_window, start + len(signals))`;
signals are truncated or zero-padded to the index length, and the first
aligned signal is forced to `0` (IndexError — hence an error value — when
the aligned index is empty). -/

/-- Length of the Python slice `index[a:b]` of a length-`n` index, with
Python's clamping and negative-index wrapping (`b` can be negative when
`len(test_data) < prediction_window`). -/
def pySliceLen (n : ℕ) (a b : ℤ) : ℕ :=
  let norm : ℤ → ℤ := fun i => if i < 0 then max 0 (n + i) else min i n
  (norm b - norm a).toNat

/-- Error values for the Python exceptions the embedding tracks. -/
inductive PyErr where
  | valueErr
  | indexErr
deriving DecidableEq, Repr

/-- Lines 1205-1237 of `backtest`.  Returns the start position of the
aligned index within the price-history index together with the aligned
signal values (after truncation / zero padding and zeroing of the first
entry), or `PyErr.indexErr` when the aligned index is empty
(`aligned_signals.iloc[0] = 0` raises there). -/
def alignSignals (isSequential : Bool) (sequenceLength lookback predictionWindow
    dataLen : ℕ) (signals : List ℚ) : Except PyErr (ℕ × List ℚ) :=
  let validEnd : ℤ := (dataLen : ℤ) - predictionWindow
  let defaultLen := pySliceLen dataLen lookback validEnd
  -- `if len(signals) != len(valid_index)` (line 1211): on a mismatch the
  -- start index is recomputed (lines 1216-1225).  `lookback + sequenceLength - 1`
  -- is truncated ℕ subtraction; it agrees with the Python integer except in the
  -- degenerate corner `lookback = sequenceLength = 0` (the source always has
  -- `lookback ∈ {7, 10}`).
  let start := if signals.length ≠ defaultLen then
      (if isSequential then lookback + sequenceLength - 1 else lookback)
    else lookback
  let idxLen := if signals.length ≠ defaultLen then
      pySliceLen dataLen (start : ℤ) (min validEnd ((start : ℤ) + signals.length))
    else defaultLen
  -- truncate excess signals / zero-pad missing ones (lines 1227-1233)
  let fitted := (signals.take idxLen) ++ List.replicate (idxLen - signals.length) 0
  -- `aligned_signals.iloc[0] = 0` (line 1237)
  if fitted.isEmpty then .error .indexErr
  else .ok (start, 0 :: fitted.tail)

/-! ## `generate_signals` (source lines 101-946)

The prediction series is a rational list.  Two quantities of the source
are square roots and therefore enter as parameters:

* `stds` — the series `pd.Series(predictions).rolling(20, min_periods=1).std()`
  (line 154; `none` = NaN, which pandas produces exactly at index 0, where
  the window holds a single observation and `ddof=1` is undefined);
* `pmStd` — the scalar `np.std(price_momentum)` (line 570, `ddof=0`;
  `none` = NaN, produced only for an empty array).

Universally quantified theorems over these parameters subsume the actual
square-root values of a real run. -/

/-- Source `x < c` on an optional value; a NaN (`none`) comparison is `False`,
as in numpy/pandas. -/
def optLtQ (o : Option ℚ) (c : ℚ) : Bool :=
  match o with
  | some x => decide (x < c)
  | none => false

/-- Source `x > c` on an optional value; NaN compares `False`. -/
def optGtQ (o : Option ℚ) (c : ℚ) : Bool :=
  match o with
  | some x => decide (c < x)
  | none => false

/-- The series of values of `f` at indices `0, ..., n-1`. -/
def mkSeries (n : ℕ) (f : ℕ → ℚ) : List ℚ :=
  (List.range n).map f

/-- The pandas rolling window of width `w` ending at index `t` of a list:
the last `min (w, t+1)` elements among the first `t+1`. -/
def win {α : Type} (w t : ℕ) (l : List α) : List α :=
  (l.take (t + 1)).drop (t + 1 - w)

/-- Source `np.diff` (one step): `out[i] = a[i+1] - a[i]`. -/
def npDiff (l : List ℚ) : List ℚ :=
  List.zipWith (fun a b => a - b) l.tail l

/-- Source `np.diff(a, n=k)`: the `k`-th iterated difference. -/
def npDiffN : ℕ → List ℚ → List ℚ
  | 0, l => l
  | k + 1, l => npDiffN k (npDiff l)

/-- The per-regime parameter records of lines 117-148, together with the
`regime_params.get(market_condition, regime_params['sideways'])` lookup of
line 151 (any unknown label, e.g. the default `'normal'`, gets the
sideways parameters). -/
structure RegimeParams where
  long_threshold : ℚ
  short_threshold : ℚ
  min_position : ℚ
  max_position : ℚ
  trend_threshold : ℚ
  vol_threshold : ℚ
  quality_threshold : ℚ
  momentum_threshold : ℚ
deriving DecidableEq, Repr

/-- Lines 117-151. -/
def regimeParams (marketCondition : String) : RegimeParams :=
  if marketCondition = "bullish" then
    ⟨7/10, 17/20, 1/20, 3/20, 1/20, 6/5, 7/10, 3/5⟩
  else if marketCondition = "bearish" then
    ⟨17/20, 7/10, 1/25, 3/25, 3/50, 23/20, 3/4, 13/20⟩
  else
    ⟨4/5, 4/5, 3/100, 2/25, 7/100, 11/10, 4/5, 7/10⟩

namespace GenSig

/-! All series below are functions of the index `t`; they are evaluated at
`t < predictions.length` only.  Argument order is always
`(preds) (stds) ... (t)`. -/

/-- Entry `t` of the rolling-std parameter series (line 154). -/
def stdAt (stds : List (Option ℚ)) (t : ℕ) : Option ℚ :=
  stds.getD t none

/-- Source `rolling_std.rolling(window=50, min_periods=1).mean()` (line 158):
pandas rolling mean skips NaN entries; all-NaN windows give NaN. -/
def stdRollMean (stds : List (Option ℚ)) (t : ℕ) : Option ℚ :=
  let vs := (win 50 t stds).filterMap id
  if vs.isEmpty then none else some (listMean vs)

/-- Source `vol_ratio = rolling_std / rolling_std.rolling(50, 1).mean()`
(line 157).  A zero denominator only occurs as `0 / 0` (the numerator
`rolling_std[t]` is itself part of the denominator's window and all
rolling stds are nonnegative), which is float NaN, hence `none`. -/
def vrAt (preds : List ℚ) (stds : List (Option ℚ)) (t : ℕ) : Option ℚ :=
  match stdAt stds t, stdRollMean stds t with
  | some x, some m => if m = 0 then none else some (x / m)
  | _, _ => none

/-- Source `vol_scale = np.clip(1.2 - (vol_ratio - 1.0), 0.3, 1.0)` (line 168). -/
def volScale1 (preds : List ℚ) (stds : List (Option ℚ)) (t : ℕ) : Option ℚ :=
  (vrAt preds stds t).map (fun v => clipQ (3/10) 1 (6/5 - (v - 1)))

/-- Source `rolling(w, min_periods=1).mean()` of the prediction series
(lines 173-178); total, since the input has no NaN. -/
def rollMean1 (preds : List ℚ) (w t : ℕ) : ℚ :=
  listMean (win w t preds)

/-- Source `trend_short` of line 173 (5-period). -/
def trendShort1 (preds : List ℚ) (t : ℕ) : ℚ := rollMean1 preds 5 t

/-- Source `trend_medium` of line 175 (10-period). -/
def trendMedium1 (preds : List ℚ) (t : ℕ) : ℚ := rollMean1 preds 10 t

/-- Source `trend_long` of line 177 (20-period). -/
def trendLong1 (preds : List ℚ) (t : ℕ) : ℚ := rollMean1 preds 20 t

/-- Source `trend_diff = trend_short.diff().fillna(0)` (line 181). -/
def trendDiff1 (preds : List ℚ) (t : ℕ) : ℚ :=
  if t = 0 then 0 else trendShort1 preds t - trendShort1 preds (t - 1)

/-- The sign-match indicator inside line 183:
`(np.sign(trend_diff) == np.sign(trend_diff.shift(1))).astype(float)`;
at `t = 0` the shifted value is NaN and the comparison is `False`. -/
def signMatch1 (preds : List ℚ) (t : ℕ) : ℚ :=
  if t = 0 then 0
  else b2q (signQ (trendDiff1 preds t) = signQ (trendDiff1 preds (t - 1)))

/-- Source `trend_persistence` of lines 182-184: `rolling(5, min_periods=1).mean()`
of the sign-match indicator. -/
def trendPersistence1 (preds : List ℚ) (t : ℕ) : ℚ :=
  listMean (win 5 t (mkSeries preds.length (signMatch1 preds)))

/-- Source `momentum_strength` of lines 187-196.  `valid_trends` (line 188) is
everywhere `True`: the rolling means of lines 173-178 use
`min_periods=1` on a NaN-free input, so the masked assignment of line 196
fills the whole array. -/
def momStrength (preds : List ℚ) (p : RegimeParams) (t : ℕ) : ℚ :=
  b2q (decide (trendShort1 preds t > trendMedium1 preds t) &&
    decide (trendMedium1 preds t > trendLong1 preds t) &&
    decide (|trendMedium1 preds t - 1/2| > p.trend_threshold))

/-- Source `base_scale = np.where(vol_ratio < vol_threshold, vol_scale, vol_scale*0.3)`
(lines 199-203); a NaN condition selects the `else` branch, and NaN
`vol_scale` propagates through the multiplication. -/
def baseScale (preds : List ℚ) (stds : List (Option ℚ)) (p : RegimeParams)
    (t : ℕ) : Option ℚ :=
  if optLtQ (vrAt preds stds t) p.vol_threshold then volScale1 preds stds t
  else (volScale1 preds stds t).map (fun x => x * (3/10))

/-- Source `trend_quality` of lines 206-214 (first version): zero outside
`valid_quality = valid_trends & (trend_persistence > 0.6)`
(`valid_trends` is everywhere `True`, see `momStrength`). -/
def trendQuality1 (preds : List ℚ) (t : ℕ) : ℚ :=
  if trendPersistence1 preds t > 3/5 then
    clipQ 0 1 ((2/5) * |trendShort1 preds t - 1/2| + (3/10) * |trendMedium1 preds t - 1/2|
      + (3/10) * trendPersistence1 preds t)
  else 0

/-- Source `position_scale` of lines 217-234 (regime-specific `np.where`). -/
def positionScale (preds : List ℚ) (stds : List (Option ℚ)) (regime : String)
    (t : ℕ) : Option ℚ :=
  let p := regimeParams regime
  let b := baseScale preds stds p t
  if regime = "bullish" then
    if momStrength preds p t > 0 ∧ trendQuality1 preds t > 3/5 then
      b.map (fun x => x * (4/5)) else b.map (fun x => x * (1/2))
  else if regime = "bearish" then
    if momStrength preds p t > 0 ∧ trendQuality1 preds t > 7/10 then
      b.map (fun x => x * (7/10)) else b.map (fun x => x * (2/5))
  else
    if momStrength preds p t > 0 ∧ trendQuality1 preds t > 4/5 then
      b.map (fun x => x * (3/5)) else b.map (fun x => x * (3/10))

/-- Source `calculate_trend` (lines 241-248) before the `fillna`:
`rolling(w, min_periods=max(2, w//2)).mean()`. -/
def rollMeanMP (preds : List ℚ) (w t : ℕ) : Option ℚ :=
  let s := win w t preds
  if s.length < max 2 (w / 2) then none else some (listMean s)

/-- The `fillna` value of lines 246-247: the mean of the non-NaN rolling
means if any exist, else the neutral `0.5`. -/
def trendFill (preds : List ℚ) (w : ℕ) : ℚ :=
  let vs := (List.range preds.length).filterMap (rollMeanMP preds w)
  if vs.isEmpty then 1/2 else listMean vs

/-- Source `calculate_trend(data, window)` (lines 241-248). -/
def calcTrend (preds : List ℚ) (w t : ℕ) : ℚ :=
  match rollMeanMP preds w t with
  | some v => v
  | none => trendFill preds w

/-- Source `trend_short` of line 251 (3-period, second trend set). -/
def trendShortA (preds : List ℚ) (t : ℕ) : ℚ := calcTrend preds 3 t

/-- Source `trend_medium` of line 253 (5-period). -/
def trendMediumA (preds : List ℚ) (t : ℕ) : ℚ := calcTrend preds 5 t

/-- Source `trend_long` of line 254 (8-period). -/
def trendLongA (preds : List ℚ) (t : ℕ) : ℚ := calcTrend preds 8 t

/-- Source `trend_super` of line 255 (13-period). -/
def trendSuperA (preds : List ℚ) (t : ℕ) : ℚ := calcTrend preds 13 t

/-- Source `trend_diff_short = trend_short.diff().fillna(0)` (line 258). -/
def trendDiffShortA (preds : List ℚ) (t : ℕ) : ℚ :=
  if t = 0 then 0 else trendShortA preds t - trendShortA preds (t - 1)

/-- Source `trend_diff_medium = trend_medium.diff().fillna(0)` (line 259). -/
def trendDiffMediumA (preds : List ℚ) (t : ℕ) : ℚ :=
  if t = 0 then 0 else trendMediumA preds t - trendMediumA preds (t - 1)

/-- Source `trend_aligned` (lines 262-267). -/
def trendAligned (preds : List ℚ) (p : RegimeParams) (t : ℕ) : Prop :=
  signQ (trendShortA preds t - 1/2) = signQ (trendMediumA preds t - 1/2) ∧
  signQ (trendMediumA preds t - 1/2) = signQ (trendLongA preds t - 1/2) ∧
  |trendMediumA preds t - 1/2| > p.trend_threshold

instance (preds : List ℚ) (p : RegimeParams) (t : ℕ) :
    Decidable (trendAligned preds p t) := by
  unfold trendAligned; infer_instance

/-- Source `trend_strength = |trend_medium - 0.5|` (lines 271-274; the
`np.nan_to_num(. , nan=0.5)` is a no-op since `calculate_trend` already
filled every NaN). -/
def trendStrength (preds : List ℚ) (t : ℕ) : ℚ :=
  |trendMediumA preds t - 1/2|

/-- Source `trend_persistence` of lines 283-288 (second version, boolean). -/
def trendPersistenceA (preds : List ℚ) (p : RegimeParams) (t : ℕ) : Prop :=
  signQ (trendDiffShortA preds t) = signQ (trendDiffMediumA preds t) ∧
  |trendDiffMediumA preds t| > p.trend_threshold

instance (preds : List ℚ) (p : RegimeParams) (t : ℕ) :
    Decidable (trendPersistenceA preds p t) := by
  unfold trendPersistenceA; infer_instance

/-- Source `momentum_confirmed` (lines 298-303). -/
def momConfirmed (preds : List ℚ) (p : RegimeParams) (t : ℕ) : Prop :=
  |trendShortA preds t - trendMediumA preds t| > p.trend_threshold ∧
  |trendMediumA preds t - trendLongA preds t| > p.trend_threshold * (4/5) ∧
  |trendLongA preds t - trendSuperA preds t| > p.trend_threshold * (3/5)

instance (preds : List ℚ) (p : RegimeParams) (t : ℕ) :
    Decidable (momConfirmed preds p t) := by
  unfold momConfirmed; infer_instance

/-- Source `long_signals` (lines 306-324). -/
def longSignal (preds : List ℚ) (stds : List (Option ℚ)) (regime : String)
    (t : ℕ) : Prop :=
  let p := regimeParams regime
  preds.getD t 0 > p.long_threshold ∧
  optLtQ (vrAt preds stds t) p.vol_threshold = true ∧
  trendAligned preds p t ∧
  trendPersistenceA preds p t ∧
  momConfirmed preds p t ∧
  trendStrength preds t > p.trend_threshold * (6/5) ∧
  trendShortA preds t > trendMediumA preds t ∧
  trendMediumA preds t > trendLongA preds t ∧
  trendLongA preds t > trendSuperA preds t

instance (preds : List ℚ) (stds : List (Option ℚ)) (regime : String) (t : ℕ) :
    Decidable (longSignal preds stds regime t) := by
  unfold longSignal; infer_instance

/-- Source `short_signals` (lines 327-345). -/
def shortSignal (preds : List ℚ) (stds : List (Option ℚ)) (regime : String)
    (t : ℕ) : Prop :=
  let p := regimeParams regime
  preds.getD t 0 < 1 - p.short_threshold ∧
  optLtQ (vrAt preds stds t) (p.vol_threshold * (9/10)) = true ∧
  trendAligned preds p t ∧
  trendPersistenceA preds p t ∧
  momConfirmed preds p t ∧
  trendStrength preds t > p.trend_threshold * (3/2) ∧
  trendShortA preds t < trendMediumA preds t ∧
  trendMediumA preds t < trendLongA preds t ∧
  trendLongA preds t < trendSuperA preds t

instance (preds : List ℚ) (stds : List (Option ℚ)) (regime : String) (t : ℕ) :
    Decidable (shortSignal preds stds regime t) := by
  unfold shortSignal; infer_instance

/-- Source `trend_quality` of lines 351-360 (second version). -/
def trendQuality2 (preds : List ℚ) (t : ℕ) : ℚ :=
  clipQ 0 1 ((3/10) * |trendShortA preds t - 1/2| + (3/10) * |trendMediumA preds t - 1/2|
    + (1/5) * |trendLongA preds t - 1/2| + (1/10) * |trendSuperA preds t - 1/2|
    + (1/10) * b2q (signQ (trendDiffShortA preds t) = signQ (trendDiffMediumA preds t)))

/-- Source `momentum_quality` of lines 363-370 (second version). -/
def momQuality2 (preds : List ℚ) (p : RegimeParams) (t : ℕ) : ℚ :=
  clipQ 0 1 ((2/5) * |trendDiffShortA preds t| + (3/10) * |trendDiffMediumA preds t|
    + (1/5) * b2q (decide (trendPersistenceA preds p t))
    + (1/10) * b2q (decide (|trendMediumA preds t - trendLongA preds t| > p.trend_threshold)))

/-- Source `volatility_quality` (lines 373-377); NaN `vol_ratio` propagates. -/
def volQuality1 (preds : List ℚ) (stds : List (Option ℚ)) (t : ℕ) : Option ℚ :=
  (vrAt preds stds t).map (fun v =>
    clipQ 0 1 ((3/5) * (3/2 - v) + (2/5) * (1 - |trendDiffShortA preds t|)))

/-- Source `signal_persistence` (lines 380-385); the NaN comparison
`vol_ratio < vol_threshold` contributes `0`. -/
def signalPersistence (preds : List ℚ) (stds : List (Option ℚ)) (p : RegimeParams)
    (t : ℕ) : ℚ :=
  clipQ 0 1 ((1/2) * b2q (decide (trendStrength preds t > 7/10))
    + (3/10) * b2q (decide (|trendDiffMediumA preds t| < 3/200))
    + (1/5) * b2q (optLtQ (vrAt preds stds t) p.vol_threshold))

/-- Source `signal_consistency` (lines 388-396). -/
def signalConsistency (preds : List ℚ) (t : ℕ) : ℚ :=
  clipQ 0 1 ((2/5) * b2q (decide (|trendShortA preds t - trendMediumA preds t| < 1/10))
    + (3/10) * b2q (decide (|trendMediumA preds t - trendLongA preds t| < 3/20))
    + (3/10) * b2q (decide (|trendLongA preds t - trendSuperA preds t| < 1/5)))

/-- The first `valid_signals` mask (lines 399-410). -/
def validSignals1 (preds : List ℚ) (stds : List (Option ℚ)) (regime : String)
    (t : ℕ) : Prop :=
  let p := regimeParams regime
  trendQuality2 preds t > p.quality_threshold ∧
  momQuality2 preds p t > p.momentum_threshold ∧
  optGtQ (volQuality1 preds stds t) (7/10) = true ∧
  signalPersistence preds stds p t > 4/5 ∧
  signalConsistency preds t > 7/10

instance (preds : List ℚ) (stds : List (Option ℚ)) (regime : String) (t : ℕ) :
    Decidable (validSignals1 preds stds regime t) := by
  unfold validSignals1; infer_instance

/-- Source `vol_quality = np.clip(2.0 - vol_ratio, 0, 1)` (line 426). -/
def volQuality2 (preds : List ℚ) (stds : List (Option ℚ)) (t : ℕ) : Option ℚ :=
  (vrAt preds stds t).map (fun v => clipQ 0 1 (2 - v))

/-- Source `signal_quality` after both masked assignments (lines 413-423 and
428-435): the second assignment (at `long_signals | short_signals`)
overwrites the first (at `validSignals1`); elsewhere the array keeps its
zero initialisation.  The `getD 0` unwraps are unreachable junk: both
guarded branches force the corresponding `vol_ratio` to be finite
(`optGtQ`/`optLtQ` on NaN is `false`). -/
def signalQuality (preds : List ℚ) (stds : List (Option ℚ)) (regime : String)
    (t : ℕ) : ℚ :=
  let p := regimeParams regime
  if longSignal preds stds regime t ∨ shortSignal preds stds regime t then
    clipQ 0 1 ((2/5) * trendQuality2 preds t + (2/5) * momQuality2 preds p t
      + (1/5) * ((volQuality2 preds stds t).getD 0))
  else if validSignals1 preds stds regime t then
    clipQ 0 1 ((1/4) * trendQuality2 preds t + (1/4) * momQuality2 preds p t
      + (1/5) * ((volQuality1 preds stds t).getD 0)
      + (3/20) * signalPersistence preds stds p t + (3/20) * signalConsistency preds t)
  else 0

/-- The indices where `long_signals` holds. -/
def longIdx (preds : List ℚ) (stds : List (Option ℚ)) (regime : String) : List ℕ :=
  (List.range preds.length).filter (fun t => decide (longSignal preds stds regime t))

/-- The indices where `short_signals` holds. -/
def shortIdx (preds : List ℚ) (stds : List (Option ℚ)) (regime : String) : List ℕ :=
  (List.range preds.length).filter (fun t => decide (shortSignal preds stds regime t))

/-- The long position value of lines 440-460 (evaluated only in the
unreachable case where every index is long, see `generate_signals`). -/
def longValue (preds : List ℚ) (stds : List (Option ℚ)) (regime : String)
    (t : ℕ) : ℚ :=
  let p := regimeParams regime
  let vr := (vrAt preds stds t).getD 0
  let conf := clipQ p.min_position 1
    ((2/5) * ((preds.getD t 0 - p.long_threshold) / (1 - p.long_threshold))
      + (2/5) * signalQuality preds stds regime t + (1/5) * (1 - vr))
  conf * ((positionScale preds stds regime t).getD 0) * p.max_position * (1 - vr * (1/5))

/-- The short position value of lines 463-480 (same caveat). -/
def shortValue (preds : List ℚ) (stds : List (Option ℚ)) (regime : String)
    (t : ℕ) : ℚ :=
  let p := regimeParams regime
  let vr := (vrAt preds stds t).getD 0
  let conf := clipQ p.min_position 1
    ((2/5) * ((p.short_threshold - preds.getD t 0) / p.short_threshold)
      + (2/5) * signalQuality preds stds regime t + (1/5) * (1 - vr));
  -(conf * ((positionScale preds stds regime t).getD 0) * p.max_position * (1 - vr * (1/5)))

/-- Source `signals_array` after both masked assignments of lines 438-480
(only meaningful when the blocks do not raise, i.e. when a firing mask is
empty or full). -/
def signals1 (preds : List ℚ) (stds : List (Option ℚ)) (regime : String)
    (t : ℕ) : ℚ :=
  if shortSignal preds stds regime t then shortValue preds stds regime t
  else if longSignal preds stds regime t then longValue preds stds regime t
  else 0

/-- The regime/volatility bucket table of lines 487-513 producing the
scalar `vol_scale`; a NaN `vol_ratio_value` falls through every comparison
into the final bucket. -/
def bucketScale (regime : String) (vrv : Option ℚ) : ℚ :=
  if regime = "bullish" then
    if optGtQ vrv (13/10) then 3/10
    else if optGtQ vrv (11/10) then 1/2
    else if optGtQ vrv (9/10) then 4/5
    else 1
  else if regime = "bearish" then
    if optGtQ vrv (6/5) then 1/5
    else if optGtQ vrv 1 then 2/5
    else if optGtQ vrv (4/5) then 3/5
    else 4/5
  else
    if optGtQ vrv (11/10) then 1/10
    else if optGtQ vrv (9/10) then 3/10
    else if optGtQ vrv (4/5) then 1/2
    else 3/5

/-- The quality-based multiplier chain of lines 516-542 (`1` when no
branch fires). -/
def qualityAdj (regime : String) (q : ℚ) : ℚ :=
  if regime = "bullish" then
    if q < 2/5 then 3/10
    else if q < 3/5 then 3/5
    else if q < 4/5 then 9/10
    else if q > 9/10 then 6/5
    else 1
  else if regime = "bearish" then
    if q < 1/2 then 1/5
    else if q < 7/10 then 2/5
    else if q < 17/20 then 3/5
    else if q > 19/20 then 4/5
    else 1
  else
    if q < 3/5 then 1/10
    else if q < 4/5 then 3/10
    else if q < 9/10 then 1/2
    else if q > 19/20 then 7/10
    else 1

/-- The third, "market condition adjustment" multiplier of lines 544-556.
Unlike the two previous chains this one matches the literal regime strings
only: an unknown label (e.g. `'normal'`) multiplies by `1`. -/
def thirdAdj (regime : String) (q : ℚ) : ℚ :=
  if regime = "sideways" then
    if q > 4/5 then 9/10 else 7/10
  else if regime = "bearish" then
    if q > 4/5 then 4/5 else 3/5
  else if regime = "bullish" ∧ q > 4/5 then 6/5
  else 1

/-- Source `price_momentum = np.diff(predictions, n=5, prepend=np.zeros(5))`
(lines 565-567): the 5th iterated difference of the zero-prepended
series; its length is again `n`. -/
def priceMomentum (preds : List ℚ) : List ℚ :=
  npDiffN 5 (List.replicate 5 0 ++ preds)

/-- Element `t` of `price_momentum`. -/
def pmAt (preds : List ℚ) (t : ℕ) : ℚ :=
  (priceMomentum preds).getD t 0

/-- Source `momentum_quality = np.abs(price_momentum) / np.std(price_momentum)`
(line 570) composed with the `np.nan_to_num(., nan=0.5, posinf=1.0,
neginf=-1.0)` applied to it inside the validation loop (line 678): a zero
std makes the entry `0/0 = NaN ↦ 0.5` or `|x|/0 = +inf ↦ 1.0`; a NaN std
(empty input, unreachable past line 483) makes every entry `NaN ↦ 0.5`. -/
def momQuality3 (preds : List ℚ) (pmStd : Option ℚ) (t : ℕ) : ℚ :=
  match pmStd with
  | none => 1/2
  | some s =>
    if s = 0 then (if pmAt preds t = 0 then 1/2 else 1)
    else |pmAt preds t| / s

/-- Source `np.roll(price_momentum, 1)` at index `t` (line 572): circular shift,
index 0 receives the last element. -/
def pmRolled (preds : List ℚ) (t : ℕ) : ℚ :=
  if t = 0 then pmAt preds (preds.length - 1) else pmAt preds (t - 1)

/-- Source `momentum_persistence` (lines 571-574):
`rolling(window=3).mean()` (default `min_periods` = window, hence NaN for
`t < 2`) of the sign-match indicator, then `.fillna(0)`. -/
def momPersistence (preds : List ℚ) (t : ℕ) : ℚ :=
  if t < 2 then 0
  else listMean (win 3 t (mkSeries preds.length
    (fun s => b2q (signQ (pmAt preds s) = signQ (pmRolled preds s)))))

/-- The regime-specific threshold quadruple
`(mom_threshold, quality_threshold, persistence_threshold, vol_threshold)`
of lines 749-763.  (The earlier assignment of lines 577-591 is dead: it is
overwritten here before any use.) -/
def momThresholds (regime : String) : ℚ × ℚ × ℚ × ℚ :=
  if regime = "bullish" then (13/20, 3/5, 11/20, 6/5)
  else if regime = "bearish" then (3/4, 7/10, 13/20, 1)
  else (7/10, 13/20, 3/5, 11/10)

end GenSig

/-- Source `ModelBacktester.generate_signals` (lines 101-946).

Control flow faithfully embedded:

* Lines 438-460 / 463-480: when any long (resp. short) signal fires, the
  source multiplies `long_confidence` — a pandas Series of length `k`
  (the number of firing indices) — by the numpy array `position_scale` of
  length `n`; pandas raises `ValueError` unless the lengths match, so a
  non-empty, non-full firing set raises (uncaught inside the function).
* Line 483: `float(vol_ratio.iloc[-1])` raises `IndexError` on an empty
  prediction series.
* The `try` of lines 621-946 cannot raise in the embedded semantics; its
  `except` fallbacks (lines 746, 836, 946, all returning a zero series of
  length `n`) are therefore not taken.

The returned series applies the scalar volatility/quality scaling
(lines 487-558), the `±max_position_size` clip (line 561), and the
momentum filter mask (lines 811-896; the final `fillna(0)` of line 900 is
a no-op on the NaN-free values). -/
def generate_signals (maxPositionSize : ℚ) (preds : List ℚ) (regime : String)
    (stds : List (Option ℚ)) (pmStd : Option ℚ) : Except PyErr (List ℚ) :=
  let n := preds.length
  let nLong := (GenSig.longIdx preds stds regime).length
  if nLong ≠ 0 ∧ nLong ≠ n then .error .valueErr
  else
    let nShort := (GenSig.shortIdx preds stds regime).length
    if nShort ≠ 0 ∧ nShort ≠ n then .error .valueErr
    else if n = 0 then .error .indexErr
    else
      -- lines 482-484
      let vrv := GenSig.vrAt preds stds (n - 1)
      let qs := listMean (mkSeries n (GenSig.signalQuality preds stds regime))
      -- lines 487-556: the three multiplier chains on the scalar `vol_scale`
      let volScale2 := GenSig.bucketScale regime vrv * GenSig.qualityAdj regime qs
        * GenSig.thirdAdj regime qs
      -- lines 558-562
      let clipped := fun t => clipQ (-maxPositionSize) maxPositionSize
        (GenSig.signals1 preds stds regime t * volScale2)
      -- lines 749-763
      let thr := GenSig.momThresholds regime
      let vr2 := vrv.getD 1
      -- lines 811-896 (`valid_mask` of line 859 is everywhere true: all
      -- of the validated arrays are NaN-free)
      let mask := fun t =>
        decide (|GenSig.pmAt preds t| < 1/1000) ||
        (decide (clipped t > 0) && decide (GenSig.pmAt preds t < -(1/500)) &&
          decide (GenSig.momQuality3 preds pmStd t > thr.1)) ||
        (decide (clipped t < 0) && decide (GenSig.pmAt preds t > 1/500) &&
          decide (GenSig.momQuality3 preds pmStd t > thr.1)) ||
        decide (GenSig.signalQuality preds stds regime t < thr.2.1) ||
        decide (GenSig.momPersistence preds t < thr.2.2.1) ||
        (decide (vr2 > thr.2.2.2) && decide (GenSig.signalQuality preds stds regime t < 4/5))
      .ok (mkSeries n (fun t => if mask t then 0 else clipped t))

/-! ## `backtest` orchestration (source lines 948-1296)

External collaborators — the data handler
(`calculate_technical_indicators`, `prepare_features`), the model
(`predict`) and the trade simulator (`calculate_returns`,
`calculate_metrics`) — are abstracted into an environment record; an
`Except.error` models the collaborator raising.  The four regime
statistics (lines 979-982, pandas aggregates involving a rolling standard
deviation) enter as optional rationals, `none` = NaN. -/

/-- Environment of one `backtest` call: everything the pipeline consumes
from the outside world. -/
structure BTEnv where
  /-- Source `len(test_data)` -/
  dataLen : ℕ
  /-- the indicator / market-statistics block (lines 967-982) raises -/
  indFail : Bool
  /-- Source `trend` (line 979) -/
  trendRaw : Option ℚ
  /-- Source `volatility` (line 980) -/
  volRaw : Option ℚ
  /-- Source `momentum` (line 981) -/
  momRaw : Option ℚ
  /-- Source `rsi_avg` (line 982) -/
  rsiRaw : Option ℚ
  /-- first `prepare_features` call (lines 1053-1066): number of generated
  sequences, with `0` covering both `None` and an empty matrix -/
  prep1 : Except Unit ℕ
  /-- retry with the shorter lookback (lines 1116-1120) -/
  prep2 : Except Unit ℕ
  /-- Source `model.predict` (lines 1161-1174) -/
  modelPreds : Except Unit (List ℚ)
  /-- rolling std of the prediction series (input of `generate_signals`) -/
  predStds : List (Option ℚ)
  /-- Source `np.std(price_momentum)` inside `generate_signals` -/
  pmStd : Option ℚ
  /-- Source `simulator.calculate_returns` (line 1240): an opaque handle for the
  returned result table -/
  simRet : Except Unit ℕ
  /-- Source `simulator.calculate_metrics` (line 1246) -/
  simMet : Except Unit ℕ

/-- Configuration of the backtester relevant to `backtest`. -/
structure BTConfig where
  /-- Source `max_position_size` (default `0.2`) -/
  maxPositionSize : ℚ
  /-- model-type flag `is_sequential` (line 81) -/
  isSequential : Bool
  /-- Source `sequence_length` (default `10`) -/
  sequenceLength : ℕ

/-- Observable outcome of `backtest` (the returned dict).  `none` in
`results` / `metrics` stands for the empty `pd.DataFrame()` / `{}` of the
failure dictionaries; the success dictionary (lines 1248-1255) carries a
`market_condition` key which the failure dictionaries lack. -/
structure BTResult where
  symbol : String
  results : Option ℕ
  metrics : Option ℕ
  predictions : List ℚ
  signals : Option (ℕ × List ℚ)
  marketCondition : Option String
deriving DecidableEq, Repr

/-- The failure value returned by every guarded stage (for example
lines 1075-1081): empty result table, empty metrics mapping, empty
prediction array and signal series. -/
def emptyBTResult (symbol : String) : BTResult :=
  ⟨symbol, none, none, [], none, none⟩

/-- Source `ModelBacktester.backtest` (lines 948-1296).  The `marketCondition`
argument is the caller-supplied regime (default `'normal'`); note that the
classification block of lines 1007-1031 always reassigns the variable, so
the argument is never read. -/
def backtest (cfg : BTConfig) (env : BTEnv) (symbol : String)
    (marketCondition : String) : BTResult :=
  if env.indFail then emptyBTResult symbol else
  -- lines 984-1031: regime classification (always executed)
  let regime := classifyRegime env.trendRaw env.volRaw env.momRaw env.rsiRaw
  match env.prep1 with
  | .error _ => emptyBTResult symbol  -- lines 1082-1090
  | .ok cnt =>
    if cnt = 0 then emptyBTResult symbol  -- lines 1073-1081
    else
      -- lines 1105-1151: minimum-sequence checks and retries
      let minSeq := max 30 (env.dataLen / 5)
      let step : Except Unit ℕ :=
        if cnt < minSeq then
          match env.prep2 with
          | .error _ => .error ()  -- raises; caught by the outer handler
          | .ok cnt2 =>
            if cnt2 ≥ minSeq then .ok 7  -- shorter_lookback = max(5, 10-3)
            else
              let relaxed := if regime = .bullish then max 20 (env.dataLen / 6)
                else if regime = .bearish then max 25 (env.dataLen / 5)
                else max 15 (env.dataLen / 8)
              if cnt ≥ relaxed then .ok 10 else .error ()
        else .ok 10
      match step with
      | .error _ => emptyBTResult symbol  -- lines 1143-1151
      | .ok lookback =>
        match env.modelPreds with
        | .error _ => emptyBTResult symbol  -- lines 1194-1203
        | .ok ps =>
          if ps.isEmpty then emptyBTResult symbol  -- lines 1177-1185
          else
            match generate_signals cfg.maxPositionSize ps (regimeString regime)
                env.predStds env.pmStd with
            | .error _ => emptyBTResult symbol  -- caught at line 1194
            | .ok sig =>
              match alignSignals cfg.isSequential cfg.sequenceLength lookback 5
                  env.dataLen sig with
              | .error _ => emptyBTResult symbol  -- caught at line 1257
              | .ok startAligned =>
                match env.simRet, env.simMet with
                | .ok r, .ok m =>
                  ⟨symbol, some r, some m, ps, some startAligned,
                    some (regimeString regime)⟩
                | _, _ => emptyBTResult symbol  -- caught at line 1257

/-! ## Helper lemmas for the weighting pipeline -/

lemma normalizeW_sum (w : List K) (hw : w.sum ≠ 0) : (normalizeW w).sum = 1 := by
  simp [normalizeW, div_eq_mul_inv, List.sum_map_mul_right, mul_inv_cancel₀ hw]

lemma normalizeW_length (w : List K) : (normalizeW w).length = w.length := by
  simp [normalizeW]

lemma normalizeW_pos (w : List K) (hpos : ∀ x ∈ w, 0 < x) (hne : w ≠ []) :
    ∀ x ∈ normalizeW w, 0 < x := by
  intro x hx
  simp only [normalizeW, List.mem_map] at hx
  obtain ⟨a, ha, rfl⟩ := hx
  exact div_pos (hpos a ha) (List.sum_pos w hpos hne)

lemma normalizeW_ne_nil (w : List K) (hne : w ≠ []) : normalizeW w ≠ [] := by
  intro h
  exact hne (List.eq_nil_of_length_eq_zero (by
    simpa [normalizeW_length] using congrArg List.length h))

lemma corrStep_length (θ : K) (corr : ℕ → ℕ → Option K) (w : List K) (p : ℕ × ℕ) :
    (corrStep θ corr w p).length = w.length := by
  rcases hcc : corr p.1 p.2 with _ | c
  · simp [corrStep, hcc]
  · simp only [corrStep, hcc]
    split <;> simp

lemma scale_pos (θ c : K) (hθ : 0 < θ) (hc : c ≤ 1) :
    0 < max 0 (min 1 (1 - (c - θ))) := by
  have h1 : (0:K) < 1 - (c - θ) := by linarith
  have : (0:K) < min 1 (1 - (c - θ)) := lt_min one_pos h1
  exact lt_max_of_lt_right this

lemma corrStep_pos (θ : K) (corr : ℕ → ℕ → Option K) (w : List K) (p : ℕ × ℕ)
    (hθ : 0 < θ) (hc : ∀ i j c, corr i j = some c → c ≤ 1)
    (hpos : ∀ x ∈ w, 0 < x) : ∀ x ∈ corrStep θ corr w p, 0 < x := by
  intro x hx
  rcases hcc : corr p.1 p.2 with _ | c
  · simp only [corrStep, hcc] at hx
    exact hpos x hx
  · simp only [corrStep, hcc] at hx
    by_cases hlt : θ < c
    · rw [if_pos hlt] at hx
      simp only [List.mem_mapIdx] at hx
      obtain ⟨i, hi, hfx⟩ := hx
      have hwpos : 0 < w[i] := hpos _ (List.getElem_mem hi)
      rw [← hfx]
      split
      · exact mul_pos hwpos (scale_pos θ c hθ (hc p.1 p.2 c hcc))
      · exact hwpos
    · rw [if_neg hlt] at hx
      exact hpos x hx

lemma foldl_corrStep_pos (θ : K) (corr : ℕ → ℕ → Option K)
    (hθ : 0 < θ) (hc : ∀ i j c, corr i j = some c → c ≤ 1) :
    ∀ (ps : List (ℕ × ℕ)) (w : List K), (∀ x ∈ w, 0 < x) →
      ∀ x ∈ ps.foldl (corrStep θ corr) w, 0 < x := by
  intro ps
  induction ps with
  | nil => intro w hw; simpa using hw
  | cons p ps ih =>
    intro w hw
    exact ih (corrStep θ corr w p) (corrStep_pos θ corr w p hθ hc hw)

lemma foldl_corrStep_length (θ : K) (corr : ℕ → ℕ → Option K) :
    ∀ (ps : List (ℕ × ℕ)) (w : List K),
      (ps.foldl (corrStep θ corr) w).length = w.length := by
  intro ps
  induction ps with
  | nil => intro w; rfl
  | cons p ps ih =>
    intro w
    rw [List.foldl_cons, ih, corrStep_length]

lemma corrAdjust_pos (θ : K) (corr : ℕ → ℕ → Option K) (w : List K)
    (hθ : 0 < θ) (hc : ∀ i j c, corr i j = some c → c ≤ 1)
    (hpos : ∀ x ∈ w, 0 < x) : ∀ x ∈ corrAdjust θ corr w, 0 < x :=
  foldl_corrStep_pos θ corr hθ hc (pairList w.length) w hpos

lemma corrAdjust_length (θ : K) (corr : ℕ → ℕ → Option K) (w : List K) :
    (corrAdjust θ corr w).length = w.length :=
  foldl_corrStep_length θ corr (pairList w.length) w

lemma corrAdjust_ne_nil (θ : K) (corr : ℕ → ℕ → Option K) (w : List K)
    (hne : w ≠ []) : corrAdjust θ corr w ≠ [] := by
  intro h
  exact hne (List.eq_nil_of_length_eq_zero (by
    simpa [corrAdjust_length] using congrArg List.length h))

lemma clipQ_pos (P x : K) (hP : 0 < P) (hx : 0 < x) : 0 < clipQ 0 P x :=
  lt_min (lt_max_of_lt_left hx) hP

lemma invvol_pos (v : K) : 0 < 1 / max v (1 / 10000000000) := by
  apply div_pos one_pos
  have : (0:K) < 1 / 10000000000 := by positivity
  exact lt_max_of_lt_right this

/-- The positive, non-empty clipped weight vector arising inside
`calculate_optimal_weights`, before the final rescaling. -/
lemma clipped_weights_pos (θ P : K) (hθ : 0 < θ) (hP : 0 < P)
    (vols : List K) (hv : vols ≠ [])
    (corr : ℕ → ℕ → Option K) (hc : ∀ i j c, corr i j = some c → c ≤ 1) :
    let w0 := vols.map (fun v => 1 / max v (1 / 10000000000))
    let w3 := normalizeW (corrAdjust θ corr (normalizeW w0))
    (∀ x ∈ w3.map (fun x => clipQ 0 P x), 0 < x) ∧
      w3.map (fun x => clipQ 0 P x) ≠ [] := by
  intro w0 w3
  have hw0pos : ∀ x ∈ w0, 0 < x := by
    intro x hx
    simp only [w0, List.mem_map] at hx
    obtain ⟨v, _, rfl⟩ := hx
    exact invvol_pos v
  have hw0ne : w0 ≠ [] := by
    simp only [w0, ne_eq, List.map_eq_nil_iff]
    exact hv
  have hw1pos := normalizeW_pos w0 hw0pos hw0ne
  have hw1ne := normalizeW_ne_nil w0 hw0ne
  have hw2pos := corrAdjust_pos θ corr (normalizeW w0) hθ hc hw1pos
  have hw2ne := corrAdjust_ne_nil θ corr (normalizeW w0) hw1ne
  have hw3pos : ∀ x ∈ w3, 0 < x := normalizeW_pos _ hw2pos hw2ne
  have hw3ne : w3 ≠ [] := normalizeW_ne_nil _ hw2ne
  constructor
  · intro x hx
    simp only [List.mem_map] at hx
    obtain ⟨a, ha, rfl⟩ := hx
    exact clipQ_pos P a hP (hw3pos a ha)
  · simp only [ne_eq, List.map_eq_nil_iff]
    exact hw3ne

lemma sum_map_mul (l : List K) (c : K) : (l.map (fun x => x * c)).sum = l.sum * c := by
  induction l with
  | nil => simp
  | cons h t ih => simp [ih]; ring

/-! ## Claims C10, C1, C6 -/

/-- C10: for every non-empty volatility/correlation input (any genuine
correlation matrix has entries `≤ 1`), `_calculate_optimal_weights`
returns weights that are all nonnegative and whose sum equals
`max_portfolio_size` exactly: the inverse-volatility weights are strictly
positive, every correlation scale factor is nonnegative, the clip lower
bound is `0`, and the final step rescales the clipped vector so its total
is exactly `max_portfolio_size`. -/
theorem optimal_weights_sum_exact_nonneg
    (θ P M : K) (hθ : 0 < θ) (hP : 0 < P) (hM : 0 ≤ M)
    (vols : List K) (hv : vols ≠ [])
    (corr : ℕ → ℕ → Option K) (hc : ∀ i j c, corr i j = some c → c ≤ 1) :
    (calculate_optimal_weights θ P M vols corr).sum = M ∧
      ∀ x ∈ calculate_optimal_weights θ P M vols corr, 0 ≤ x := by
  obtain ⟨hpos, hne⟩ := clipped_weights_pos θ P hθ hP vols hv corr hc
  have hrw : calculate_optimal_weights θ P M vols corr
      = (normalizeW ((normalizeW (corrAdjust θ corr (normalizeW
          (vols.map (fun v => 1 / max v (1 / 10000000000)))))).map
          (fun x => clipQ 0 P x))).map (fun x => x * M) := rfl
  set w4 := (normalizeW (corrAdjust θ corr (normalizeW
      (vols.map (fun v => 1 / max v (1 / 10000000000)))))).map
      (fun x => clipQ 0 P x) with hw4def
  have hsumpos : 0 < w4.sum := List.sum_pos w4 hpos hne
  constructor
  · rw [hrw, sum_map_mul, normalizeW_sum w4 (ne_of_gt hsumpos), one_mul]
  · intro x hx
    rw [hrw] at hx
    simp only [List.mem_map] at hx
    obtain ⟨a, ha, rfl⟩ := hx
    obtain ⟨b, hb, rfl⟩ := by simpa only [normalizeW, List.mem_map] using ha
    exact mul_nonneg (le_of_lt (div_pos (hpos b hb) hsumpos)) hM

/-- C10 witness: a concrete two-asset instance of
`optimal_weights_sum_exact_nonneg`. -/
theorem optimal_weights_sum_exact_nonneg_witness :
    (0:ℚ) < 7/10 ∧ (0:ℚ) < 1/5 ∧ (0:ℚ) ≤ 4/5 ∧ ([36, 120] : List ℚ) ≠ [] ∧
    ((calculate_optimal_weights (K := ℚ) (7/10) (1/5) (4/5) [36, 120]
        (fun _ _ => some (19/20))).sum = 4/5 ∧
      ∀ x ∈ calculate_optimal_weights (K := ℚ) (7/10) (1/5) (4/5) [36, 120]
        (fun _ _ => some (19/20)), 0 ≤ x) :=
  ⟨by norm_num, by norm_num, by norm_num, by simp,
    optimal_weights_sum_exact_nonneg (7/10) (1/5) (4/5) (by norm_num) (by norm_num)
      (by norm_num) [36, 120] (by simp) (fun _ _ => some (19/20))
      (fun i j c h => by injection h with h'; rw [← h']; norm_num)⟩

/-- C1 (amended): the weight vector sums to at most `max_portfolio_size`
(in fact exactly), and every individual weight is at most
`max_portfolio_size`; the original per-entry bound `max_position_size`
does not hold (see `optimal_weights_position_cap_cex`). -/
theorem optimal_weights_gross_bounds
    (θ P M : K) (hθ : 0 < θ) (hP : 0 < P) (hM : 0 ≤ M)
    (vols : List K) (hv : vols ≠ [])
    (corr : ℕ → ℕ → Option K) (hc : ∀ i j c, corr i j = some c → c ≤ 1) :
    (calculate_optimal_weights θ P M vols corr).sum ≤ M ∧
      ∀ x ∈ calculate_optimal_weights θ P M vols corr, x ≤ M := by
  obtain ⟨hpos, hne⟩ := clipped_weights_pos θ P hθ hP vols hv corr hc
  have hrw : calculate_optimal_weights θ P M vols corr
      = (normalizeW ((normalizeW (corrAdjust θ corr (normalizeW
          (vols.map (fun v => 1 / max v (1 / 10000000000)))))).map
          (fun x => clipQ 0 P x))).map (fun x => x * M) := rfl
  set w4 := (normalizeW (corrAdjust θ corr (normalizeW
      (vols.map (fun v => 1 / max v (1 / 10000000000)))))).map
      (fun x => clipQ 0 P x) with hw4def
  have hsumpos : 0 < w4.sum := List.sum_pos w4 hpos hne
  constructor
  · rw [hrw, sum_map_mul, normalizeW_sum w4 (ne_of_gt hsumpos), one_mul]
  · intro x hx
    rw [hrw] at hx
    simp only [List.mem_map] at hx
    obtain ⟨a, ha, rfl⟩ := hx
    obtain ⟨b, hb, rfl⟩ := by simpa only [normalizeW, List.mem_map] using ha
    have hble : b ≤ w4.sum :=
      List.single_le_sum (fun x hx => le_of_lt (hpos x hx)) b hb
    have : b / w4.sum ≤ 1 := (div_le_one hsumpos).mpr hble
    calc b / w4.sum * M ≤ 1 * M := mul_le_mul_of_nonneg_right this hM
    _ = M := one_mul M

/-- C1 witness: a concrete instance of `optimal_weights_gross_bounds`. -/
theorem optimal_weights_gross_bounds_witness :
    (0:ℚ) < 7/10 ∧ (0:ℚ) < 1/5 ∧ (0:ℚ) ≤ 4/5 ∧ ([36, 36] : List ℚ) ≠ [] ∧
    ((calculate_optimal_weights (K := ℚ) (7/10) (1/5) (4/5) [36, 36]
        (fun _ _ => some 1)).sum ≤ 4/5 ∧
      ∀ x ∈ calculate_optimal_weights (K := ℚ) (7/10) (1/5) (4/5) [36, 36]
        (fun _ _ => some 1), x ≤ 4/5) :=
  ⟨by norm_num, by norm_num, by norm_num, by simp,
    optimal_weights_gross_bounds (7/10) (1/5) (4/5) (by norm_num) (by norm_num)
      (by norm_num) [36, 36] (by simp) (fun _ _ => some 1)
      (fun i j c h => by injection h with h'; rw [← h'])⟩

/-- C1 counterexample: two identical assets (the return series
`[3,3,-3,-3,0,0,0,0]` twice, annualized volatility exactly `36`, pairwise
correlation exactly `1`) receive the weight vector `[2/5, 2/5]` under the
default parameters (`correlation_threshold = 0.7`,
`max_position_size = 0.2`, `max_portfolio_size = 0.8`): the sum `4/5`
respects `max_portfolio_size`, but each individual weight `2/5` exceeds
`max_position_size = 1/5`, refuting the claimed per-entry bound. -/
theorem optimal_weights_position_cap_cex :
    IsVolOf [3, 3, -3, -3, 0, 0, 0, 0] 36 ∧
    IsCorrOf [3, 3, -3, -3, 0, 0, 0, 0] [3, 3, -3, -3, 0, 0, 0, 0] 1 ∧
    calculate_optimal_weights (K := ℚ) (7/10) (1/5) (4/5) [36, 36]
      (fun _ _ => some 1) = [2/5, 2/5] ∧
    ¬ ((2/5 : ℚ) ≤ 1/5) := by
  refine ⟨⟨by norm_num, ?_⟩, ⟨?_, ?_⟩, ?_, by norm_num⟩
  · norm_num [sampleVar, sampleMean, listMean]
  · norm_num [sampleVar, sampleCov, sampleMean, listMean]
  · norm_num [sampleCov, sampleMean, listMean]
  · norm_num [calculate_optimal_weights, normalizeW, corrAdjust, pairList,
      corrStep, clipQ, List.range_succ]

lemma corrAdjust_pair_normalize (θ c a b : K) (hθ : 0 < θ) (hc : c ≤ 1) :
    normalizeW (corrAdjust θ (fun _ _ => some c) [a, b]) = normalizeW [a, b] := by
  have hpair : pairList 2 = [(0, 1)] := rfl
  by_cases hlt : θ < c
  · have hs : max 0 (min 1 (1 - (c - θ))) ≠ 0 := ne_of_gt (scale_pos θ c hθ hc)
    have hstep : corrAdjust θ (fun _ _ => some c) [a, b]
        = [a * max 0 (min 1 (1 - (c - θ))), b * max 0 (min 1 (1 - (c - θ)))] := by
      show List.foldl (corrStep θ fun _ _ => some c) [a, b] (pairList 2) = _
      rw [hpair]
      simp only [List.foldl_cons, List.foldl_nil, corrStep]
      rw [if_pos hlt]
      rfl
    rw [hstep]
    set s := max 0 (min 1 (1 - (c - θ))) with hsdef
    have hsum : a * s + (b * s + 0) = (a + (b + 0)) * s := by ring
    simp only [normalizeW, List.map_cons, List.map_nil, List.sum_cons, List.sum_nil]
    rw [hsum, mul_div_mul_right _ _ hs, mul_div_mul_right _ _ hs]
  · have hstep : corrAdjust θ (fun _ _ => some c) [a, b] = [a, b] := by
      simp [corrAdjust, hpair, corrStep, hlt]
    rw [hstep]

/-- C6 (amended): for any two assets, the correlation adjustment scales
both weights by the same factor, which the subsequent renormalization
cancels exactly: the final weights equal those of the baseline pipeline
with no correlation adjustment.  They are never strictly below the
baseline, refuting the claimed strict reduction (see
`optimal_weights_pair_strict_cex`). -/
theorem optimal_weights_pair_scaling_cancels
    (θ P M : K) (hθ : 0 < θ) (v1 v2 c : K) (hc : c ≤ 1) :
    calculate_optimal_weights θ P M [v1, v2] (fun _ _ => some c)
      = specBaselineWeights P M [v1, v2] := by
  have hrw1 : calculate_optimal_weights θ P M [v1, v2] (fun _ _ => some c)
      = (normalizeW ((normalizeW (corrAdjust θ (fun _ _ => some c) (normalizeW
          ([v1, v2].map (fun v => 1 / max v (1 / 10000000000)))))).map
          (fun x => clipQ 0 P x))).map (fun x => x * M) := rfl
  have hrw2 : specBaselineWeights P M [v1, v2]
      = (normalizeW ((normalizeW (normalizeW
          ([v1, v2].map (fun v => 1 / max v (1 / 10000000000))))).map
          (fun x => clipQ 0 P x))).map (fun x => x * M) := rfl
  rw [hrw1, hrw2]
  have h2 : normalizeW ([v1, v2].map (fun v => 1 / max v (1 / 10000000000)))
      = [(1 / max v1 (1 / 10000000000)) / ([v1, v2].map
          (fun v => 1 / max v (1 / 10000000000))).sum,
         (1 / max v2 (1 / 10000000000)) / ([v1, v2].map
          (fun v => 1 / max v (1 / 10000000000))).sum] := by
    simp [normalizeW]
  rw [h2, corrAdjust_pair_normalize θ c _ _ hθ hc]

/-- C6 witness: a concrete instance of
`optimal_weights_pair_scaling_cancels`. -/
theorem optimal_weights_pair_scaling_cancels_witness :
    (0:ℚ) < 7/10 ∧ (19/20 : ℚ) ≤ 1 ∧
    calculate_optimal_weights (K := ℚ) (7/10) (1/5) (4/5) [36, 120]
        (fun _ _ => some (19/20))
      = specBaselineWeights (K := ℚ) (1/5) (4/5) [36, 120] :=
  ⟨by norm_num, by norm_num,
    optimal_weights_pair_scaling_cancels (7/10) (1/5) (4/5) (by norm_num)
      36 120 (19/20) (by norm_num)⟩

/-- C6 counterexample: two return series with Pearson correlation exactly
`0.95` (above the `0.7` threshold) and annualized volatilities `36` and
`120`.  The full pipeline and the no-correlation baseline pipeline both
yield `[2/5, 2/5]` — equal, not strictly smaller; nor is the second
weight `2/5` strictly below its normalized inverse-volatility weight
`3/13`. -/
theorem optimal_weights_pair_strict_cex :
    IsVolOf [3, 3, -3, -3, 0, 0, 0, 0] 36 ∧
    IsVolOf [10, 9, -10, -9, 5, -3, -2, 0] 120 ∧
    IsCorrOf [3, 3, -3, -3, 0, 0, 0, 0] [10, 9, -10, -9, 5, -3, -2, 0] (19/20) ∧
    (19/20 : ℚ) > 7/10 ∧
    calculate_optimal_weights (K := ℚ) (7/10) (1/5) (4/5) [36, 120]
      (fun _ _ => some (19/20)) = [2/5, 2/5] ∧
    specBaselineWeights (K := ℚ) (1/5) (4/5) [36, 120] = [2/5, 2/5] ∧
    normalizeW (K := ℚ) ([36, 120].map (fun v => 1 / max v (1 / 10000000000)))
      = [10/13, 3/13] ∧
    ¬ ((2/5 : ℚ) < 2/5) ∧ ¬ ((2/5 : ℚ) < 3/13) := by
  refine ⟨⟨by norm_num, ?_⟩, ⟨by norm_num, ?_⟩, ⟨?_, ?_⟩, by norm_num, ?_, ?_, ?_,
    by norm_num, by norm_num⟩
  · norm_num [sampleVar, sampleMean, listMean]
  · norm_num [sampleVar, sampleMean, listMean]
  · norm_num [sampleVar, sampleCov, sampleMean, listMean]
  · norm_num [sampleCov, sampleMean, listMean]
  · norm_num [calculate_optimal_weights, normalizeW, corrAdjust, pairList,
      corrStep, clipQ, List.range_succ]
  · norm_num [specBaselineWeights, normalizeW, clipQ]
  · norm_num [normalizeW]

/-! ## Claim C8: drawdown / CAGR on constant return series -/

lemma foldl_max_init_le (t : List K) : ∀ a : K, a ≤ t.foldl max a := by
  induction t with
  | nil => intro a; exact le_refl a
  | cons h t ih =>
    intro a
    exact le_trans (le_max_left a h) (ih (max a h))

lemma le_foldl_max (t : List K) (x : K) (hx : x ∈ t) : ∀ a : K, x ≤ t.foldl max a := by
  induction t with
  | nil => exact absurd hx (List.not_mem_nil x)
  | cons h t ih =>
    intro a
    rcases List.mem_cons.mp hx with rfl | hmem
    · exact le_trans (le_max_right a x) (foldl_max_init_le t _)
    · exact ih hmem _

lemma foldl_max_le (t : List K) (b : K) (h : ∀ x ∈ t, x ≤ b) :
    ∀ a : K, a ≤ b → t.foldl max a ≤ b := by
  induction t with
  | nil => intro a ha; exact ha
  | cons x t ih =>
    intro a ha
    exact ih (fun y hy => h y (List.mem_cons_of_mem x hy)) _
      (max_le ha (h x (List.mem_cons_self x t)))

lemma le_listMax_of_mem (l : List K) (x : K) (hx : x ∈ l) : x ≤ listMax l := by
  cases l with
  | nil => exact absurd hx (List.not_mem_nil x)
  | cons h t =>
    rcases List.mem_cons.mp hx with rfl | hmem
    · exact foldl_max_init_le t x
    · exact le_foldl_max t x hmem h

lemma listMax_le_of_forall (l : List K) (b : K) (hne : l ≠ [])
    (h : ∀ x ∈ l, x ≤ b) : listMax l ≤ b := by
  cases l with
  | nil => exact absurd rfl hne
  | cons x t =>
    exact foldl_max_le t b (fun y hy => h y (List.mem_cons_of_mem x hy)) x
      (h x (List.mem_cons_self x t))

lemma foldl_min_le_init (t : List K) : ∀ a : K, t.foldl min a ≤ a := by
  induction t with
  | nil => intro a; exact le_refl a
  | cons h t ih =>
    intro a
    exact le_trans (ih (min a h)) (min_le_left a h)

lemma foldl_min_le (t : List K) (x : K) (hx : x ∈ t) : ∀ a : K, t.foldl min a ≤ x := by
  induction t with
  | nil => exact absurd hx (List.not_mem_nil x)
  | cons h t ih =>
    intro a
    rcases List.mem_cons.mp hx with rfl | hmem
    · exact le_trans (foldl_min_le_init t _) (min_le_right a x)
    · exact ih hmem _

lemma le_foldl_min (t : List K) (b : K) (h : ∀ x ∈ t, b ≤ x) :
    ∀ a : K, b ≤ a → b ≤ t.foldl min a := by
  induction t with
  | nil => intro a ha; exact ha
  | cons x t ih =>
    intro a ha
    exact ih (fun y hy => h y (List.mem_cons_of_mem x hy)) _
      (le_min ha (h x (List.mem_cons_self x t)))

lemma listMin_le_of_mem (l : List K) (x : K) (hx : x ∈ l) : listMin l ≤ x := by
  cases l with
  | nil => exact absurd hx (List.not_mem_nil x)
  | cons h t =>
    rcases List.mem_cons.mp hx with rfl | hmem
    · exact foldl_min_le_init t x
    · exact foldl_min_le t x hmem h

lemma le_listMin_of_forall (l : List K) (b : K) (hne : l ≠ [])
    (h : ∀ x ∈ l, b ≤ x) : b ≤ listMin l := by
  cases l with
  | nil => exact absurd rfl hne
  | cons x t =>
    exact le_foldl_min t b (fun y hy => h y (List.mem_cons_of_mem x hy)) x
      (h x (List.mem_cons_self x t))

lemma cumRet_replicate (r : ℚ) (n t : ℕ) (ht : t < n) :
    cumRet (List.replicate n r) t = (1 + r) ^ (t + 1) := by
  unfold cumRet
  rw [List.take_replicate, min_eq_left (by omega), List.map_replicate,
    List.prod_replicate]

lemma range_map_ne_nil (t : ℕ) (f : ℕ → ℚ) : (List.range (t + 1)).map f ≠ [] := by
  simp [List.range_succ]

lemma peakAt_replicate_nonneg (r : ℚ) (n t : ℕ) (hr : 0 ≤ r) (ht : t < n) :
    peakAt (List.replicate n r) t = (1 + r) ^ (t + 1) := by
  unfold peakAt
  apply le_antisymm
  · apply listMax_le_of_forall _ _ (range_map_ne_nil t _)
    intro x hx
    simp only [List.mem_map, List.mem_range] at hx
    obtain ⟨s, hs, rfl⟩ := hx
    rw [cumRet_replicate r n s (by omega)]
    exact pow_le_pow_right₀ (by linarith) (by omega)
  · have hmem : cumRet (List.replicate n r) t ∈ (List.range (t + 1)).map
        (cumRet (List.replicate n r)) :=
      List.mem_map_of_mem _ (List.mem_range.mpr (by omega))
    have := le_listMax_of_mem _ _ hmem
    rwa [cumRet_replicate r n t ht] at this

lemma peakAt_replicate_neg (r : ℚ) (n t : ℕ) (hr : -1 < r) (hr' : r < 0) (ht : t < n) :
    peakAt (List.replicate n r) t = 1 + r := by
  unfold peakAt
  apply le_antisymm
  · apply listMax_le_of_forall _ _ (range_map_ne_nil t _)
    intro x hx
    simp only [List.mem_map, List.mem_range] at hx
    obtain ⟨s, hs, rfl⟩ := hx
    rw [cumRet_replicate r n s (by omega)]
    calc (1 + r) ^ (s + 1) ≤ (1 + r) ^ 1 :=
          pow_le_pow_of_le_one (by linarith) (by linarith) (by omega)
    _ = 1 + r := pow_one _
  · have hmem : cumRet (List.replicate n r) 0 ∈ (List.range (t + 1)).map
        (cumRet (List.replicate n r)) :=
      List.mem_map_of_mem _ (List.mem_range.mpr (by omega))
    have := le_listMax_of_mem _ _ hmem
    rwa [cumRet_replicate r n 0 (by omega), pow_one] at this

lemma drawdownAt_replicate_nonneg (r : ℚ) (n t : ℕ) (hr : 0 ≤ r) (ht : t < n) :
    drawdownAt (List.replicate n r) t = 0 := by
  unfold drawdownAt
  rw [cumRet_replicate r n t ht, peakAt_replicate_nonneg r n t hr ht, sub_self,
    zero_div]

lemma drawdownAt_replicate_neg (r : ℚ) (n t : ℕ) (hr : -1 < r) (hr' : r < 0)
    (ht : t < n) : drawdownAt (List.replicate n r) t = (1 + r) ^ t - 1 := by
  unfold drawdownAt
  rw [cumRet_replicate r n t ht, peakAt_replicate_neg r n t hr hr' ht]
  have h1 : (0:ℚ) < 1 + r := by linarith
  field_simp
  ring

lemma max_drawdown_replicate_nonneg (r : ℚ) (n : ℕ) (hr : 0 ≤ r) (hn : 1 ≤ n) :
    max_drawdown (List.replicate n r) = 0 := by
  unfold max_drawdown
  rw [List.length_replicate]
  apply le_antisymm
  · apply listMin_le_of_mem
    have h0 : (0:ℕ) ∈ List.range n := List.mem_range.mpr (by omega)
    have := List.mem_map_of_mem (drawdownAt (List.replicate n r)) h0
    rwa [drawdownAt_replicate_nonneg r n 0 hr (by omega)] at this
  · apply le_listMin_of_forall
    · cases n with
      | zero => omega
      | succ m => simp [List.range_succ]
    · intro x hx
      simp only [List.mem_map, List.mem_range] at hx
      obtain ⟨s, hs, rfl⟩ := hx
      rw [drawdownAt_replicate_nonneg r n s hr hs]

lemma max_drawdown_replicate_neg (r : ℚ) (n : ℕ) (hr : -1 < r) (hr' : r < 0)
    (hn : 1 ≤ n) :
    max_drawdown (List.replicate n r) = (1 + r) ^ (n - 1) - 1 := by
  unfold max_drawdown
  rw [List.length_replicate]
  apply le_antisymm
  · apply listMin_le_of_mem
    have h0 : n - 1 ∈ List.range n := List.mem_range.mpr (by omega)
    have := List.mem_map_of_mem (drawdownAt (List.replicate n r)) h0
    rwa [drawdownAt_replicate_neg r n (n - 1) hr hr' (by omega)] at this
  · apply le_listMin_of_forall
    · cases n with
      | zero => omega
      | succ m => simp [List.range_succ]
    · intro x hx
      simp only [List.mem_map, List.mem_range] at hx
      obtain ⟨s, hs, rfl⟩ := hx
      rw [drawdownAt_replicate_neg r n s hr hr' hs]
      have : (1 + r) ^ (n - 1) ≤ (1 + r) ^ s :=
        pow_le_pow_of_le_one (by linarith) (by linarith) (by omega)
      linarith

lemma cagr_replicate (r : ℚ) (n : ℕ) (hr : -1 < r) (hn : 1 ≤ n) :
    cagr (List.replicate n r) = ((1 + r : ℚ) : ℝ) ^ (252 : ℕ) - 1 := by
  unfold cagr
  rw [List.length_replicate]
  have hnR : (0:ℝ) < (n:ℝ) := Nat.cast_pos.mpr (by omega)
  rw [if_pos (by positivity)]
  rw [cumRet_replicate r n (n - 1) (by omega)]
  have hstep : n - 1 + 1 = n := by omega
  rw [hstep]
  have hbase : (0:ℝ) < ((1 + r : ℚ) : ℝ) := by
    have : (0:ℚ) < 1 + r := by linarith
    exact_mod_cast this
  have hcast : (((1 + r) ^ n : ℚ) : ℝ) = ((1 + r : ℚ) : ℝ) ^ n := by push_cast; ring
  rw [hcast, one_div_div]
  rw [← Real.rpow_natCast ((1 + r : ℚ) : ℝ) n, ← Real.rpow_mul hbase.le,
    ← Real.rpow_natCast ((1 + r : ℚ) : ℝ) 252]
  congr 2
  have : (n:ℝ) ≠ 0 := ne_of_gt hnR
  field_simp

/-- C8 (amended): on a constant return series `r > -1` of length `n ≥ 1`,
the metric block of `calculate_portfolio_metrics` yields CAGR exactly
`(1+r)^252 - 1`; the maximum drawdown is `0` when `r ≥ 0`, but for
`-1 < r < 0` it equals `(1+r)^(n-1) - 1`, which is strictly negative for
`n ≥ 2` (see `metrics_const_maxdd_cex`). -/
theorem metrics_const_series (r : ℚ) (n : ℕ) (hr : -1 < r) (hn : 1 ≤ n) :
    cagr (List.replicate n r) = ((1 + r : ℚ) : ℝ) ^ (252 : ℕ) - 1 ∧
    (0 ≤ r → max_drawdown (List.replicate n r) = 0) ∧
    (r < 0 → max_drawdown (List.replicate n r) = (1 + r) ^ (n - 1) - 1) :=
  ⟨cagr_replicate r n hr hn,
    fun hr' => max_drawdown_replicate_nonneg r n hr' hn,
    fun hr' => max_drawdown_replicate_neg r n hr hr' hn⟩

/-- C8 witness: `metrics_const_series` at `r = 1/10`, `n = 3`. -/
theorem metrics_const_series_witness :
    (-1 : ℚ) < 1/10 ∧ (1 ≤ 3) ∧ (0:ℚ) ≤ 1/10 ∧
    cagr (List.replicate 3 (1/10 : ℚ)) = ((11/10 : ℚ) : ℝ) ^ (252 : ℕ) - 1 ∧
    max_drawdown (List.replicate 3 (1/10 : ℚ)) = 0 := by
  refine ⟨by norm_num, by norm_num, by norm_num, ?_, ?_⟩
  · have h := (metrics_const_series (1/10) 3 (by norm_num) (by norm_num)).1
    norm_num at h ⊢
    exact h
  · exact (metrics_const_series (1/10) 3 (by norm_num) (by norm_num)).2.1 (by norm_num)

/-- C8 counterexample: the constant series `r = -1/2` (`> -1`) of length
`2` has maximum drawdown `-1/2`, not `0`: the second cumulative value
`1/4` sits below the running peak `1/2`. -/
theorem metrics_const_maxdd_cex :
    (-1 : ℚ) < -(1/2) ∧
    max_drawdown (List.replicate 2 (-(1/2) : ℚ)) = -(1/2) ∧
    max_drawdown (List.replicate 2 (-(1/2) : ℚ)) ≠ 0 := by
  refine ⟨by norm_num, ?_, ?_⟩ <;>
    norm_num [max_drawdown, drawdownAt, peakAt, cumRet, listMin, listMax,
      List.range_succ]

/-! ## Claim C7: the regime classification rule -/

/-- C7: the classification block of `backtest` (clip trend to
`[-0.1, 0.1]`, volatility to `[0.05, 0.5]`, momentum to `[-0.05, 0.05]`,
rsi to `[0, 100]`, replace non-finite statistics by `0, 0.2, 0, 50`,
then apply the ordered rules with the first match winning and the
3-of-4 bearish fallback score) coincides exactly with the rule as the
spec states it. -/
theorem classify_matches_spec (t v m r : Option ℚ) :
    classifyRegime t v m r = specClassifyRegime t v m r := by
  have key : ∀ T V M : ℚ, (1 - |T| / (1/10)) * (2/5) + (1 - V / (1/2)) * (3/10)
      + (1 - |M| / (1/20)) * (3/10)
      = (2/5) * (1 - |T| / (1/10)) + (3/10) * (1 - V / (1/2))
      + (3/10) * (1 - |M| / (1/20)) := fun T V M => by ring
  have e1 : clipQ (-(1/10)) (1/10) (0:ℚ) = 0 := by norm_num [clipQ]
  have e2 : clipQ (1/20) (1/2) (1/5 : ℚ) = 1/5 := by norm_num [clipQ]
  have e3 : clipQ (-(1/20)) (1/20) (0:ℚ) = 0 := by norm_num [clipQ]
  have e4 : clipQ 0 100 (50:ℚ) = 50 := by norm_num [clipQ]
  cases t <;> cases v <;> cases m <;> cases r <;>
    simp only [classifyRegime, specClassifyRegime, Option.map_none',
      Option.map_some', Option.getD_none, Option.getD_some, e1, e2, e3, e4, key]

/-! ## Claim C9: signal/index alignment -/

lemma fitted_length (signals : List ℚ) (k : ℕ) :
    (signals.take k ++ List.replicate (k - signals.length) (0:ℚ)).length = k := by
  simp only [List.length_append, List.length_take, List.length_replicate]
  omega

/-- C9 (amended): when the raw signal length already equals the default
aligned index length `len(index[lookback : dataLen - predictionWindow])`,
the start offset is `lookback` for both model types (the sequential
offset `lookback + sequenceLength - 1` is applied only in the
length-mismatch branch); on a mismatch the start offset is
`lookback + sequenceLength - 1` for sequential models and `lookback`
otherwise, and the signals are truncated or zero-padded to the recomputed
index length exactly.  In both cases the first aligned signal is forced
to zero. -/
theorem align_start_offset (isSeq : Bool) (seqLen lookback pw dataLen : ℕ)
    (signals : List ℚ) (start : ℕ) (aligned : List ℚ)
    (h : alignSignals isSeq seqLen lookback pw dataLen signals
      = .ok (start, aligned)) :
    (signals.length = pySliceLen dataLen lookback ((dataLen:ℤ) - pw) →
        start = lookback ∧ aligned.length = signals.length) ∧
    (signals.length ≠ pySliceLen dataLen lookback ((dataLen:ℤ) - pw) →
        start = (if isSeq then lookback + seqLen - 1 else lookback) ∧
        aligned.length = pySliceLen dataLen start
          (min ((dataLen:ℤ) - pw) ((start:ℤ) + signals.length))) ∧
    aligned.head? = some 0 := by
  simp only [alignSignals] at h
  by_cases hmis : signals.length = pySliceLen dataLen lookback ((dataLen:ℤ) - pw)
  · simp only [if_neg (not_not_intro hmis)] at h
    set fitted := signals.take (pySliceLen dataLen lookback ((dataLen:ℤ) - pw))
      ++ List.replicate (pySliceLen dataLen lookback ((dataLen:ℤ) - pw)
        - signals.length) (0:ℚ) with hfit
    have hlen : fitted.length = pySliceLen dataLen lookback ((dataLen:ℤ) - pw) :=
      fitted_length signals _
    by_cases hemp : fitted.isEmpty
    · rw [if_pos hemp] at h
      exact absurd h (by simp)
    · rw [if_neg hemp] at h
      simp only [Except.ok.injEq, Prod.mk.injEq] at h
      obtain ⟨hstart, haligned⟩ := h
      have hfne : fitted ≠ [] := by
        intro hnil; rw [hnil] at hemp; exact hemp rfl
      have hflen : 1 ≤ fitted.length := by
        cases hcc : fitted with
        | nil => exact absurd hcc hfne
        | cons a tl => simp [hcc]
      refine ⟨fun _ => ⟨hstart.symm, ?_⟩, fun hne => absurd hmis hne, ?_⟩
      · rw [← haligned]
        simp only [List.length_cons, List.length_tail]
        omega
      · rw [← haligned]; rfl
  · simp only [if_pos hmis] at h
    set start' := if isSeq then lookback + seqLen - 1 else lookback with hs
    set k := pySliceLen dataLen (start' : ℤ)
      (min ((dataLen:ℤ) - pw) ((start':ℤ) + signals.length)) with hk
    set fitted := signals.take k ++ List.replicate (k - signals.length) (0:ℚ)
      with hfit
    have hlen : fitted.length = k := fitted_length signals k
    by_cases hemp : fitted.isEmpty
    · rw [if_pos hemp] at h
      exact absurd h (by simp)
    · rw [if_neg hemp] at h
      simp only [Except.ok.injEq, Prod.mk.injEq] at h
      obtain ⟨hstart, haligned⟩ := h
      have hfne : fitted ≠ [] := by
        intro hnil; rw [hnil] at hemp; exact hemp rfl
      have hflen : 1 ≤ fitted.length := by
        cases hcc : fitted with
        | nil => exact absurd hcc hfne
        | cons a tl => simp [hcc]
      refine ⟨fun heq => absurd heq hmis, fun _ => ⟨hstart.symm, ?_⟩, ?_⟩
      · rw [← haligned, ← hstart]
        simp only [List.length_cons, List.length_tail]
        omega
      · rw [← haligned]; rfl

/-- C9 witness: `align_start_offset` on a concrete mismatching sequential
input (`dataLen = 200`, 30 signals): the recomputed start offset is
`10 + 10 - 1 = 19` and the first aligned signal is zero. -/
theorem align_start_offset_witness :
    alignSignals true 10 10 5 200 (List.replicate 30 (1/2 : ℚ))
      = .ok (19, 0 :: List.replicate 29 (1/2 : ℚ)) ∧
    (List.replicate 30 (1/2 : ℚ)).length ≠ pySliceLen 200 10 ((200:ℤ) - 5) ∧
    (19 : ℕ) = (if true then 10 + 10 - 1 else 10) ∧
    (0 :: List.replicate 29 (1/2 : ℚ)).head? = some 0 := by
  have hok : alignSignals true 10 10 5 200 (List.replicate 30 (1/2 : ℚ))
      = .ok (19, 0 :: List.replicate 29 (1/2 : ℚ)) := rfl
  have hne : (List.replicate 30 (1/2 : ℚ)).length
      ≠ pySliceLen 200 10 ((200:ℤ) - 5) := by
    decide
  have h := align_start_offset true 10 10 5 200 _ _ _ hok
  exact ⟨hok, hne, (h.2.1 hne).1, h.2.2⟩

/-- C9 counterexample: a sequential-model invocation whose signal length
(25) already equals the default aligned index length
(`40 - 5 - 10 = 25`): the alignment keeps the start offset `10 = lookback`
instead of the claimed `lookback + sequenceLength - 1 = 19`. -/
theorem align_start_offset_cex :
    alignSignals true 10 10 5 40 (List.replicate 25 (1/2 : ℚ))
      = .ok (10, 0 :: List.replicate 24 (1/2 : ℚ)) ∧
    (10 : ℕ) ≠ 10 + 10 - 1 := by
  exact ⟨rfl, by norm_num⟩

/-! ## Claims C3 and C2: `generate_signals` behaviour -/

lemma getD_replicate (n t : ℕ) (a : ℚ) (h : t < n) :
    (List.replicate n a).getD t 0 = a := by
  simp [List.getD_eq_getElem?_getD, List.getElem?_replicate, h]

lemma regimeParams_long_threshold_ge (regime : String) :
    7/10 ≤ (regimeParams regime).long_threshold := by
  unfold regimeParams
  split_ifs <;> norm_num

lemma regimeParams_short_threshold_ge (regime : String) :
    7/10 ≤ (regimeParams regime).short_threshold := by
  unfold regimeParams
  split_ifs <;> norm_num

lemma flat_no_long (n : ℕ) (stds : List (Option ℚ)) (regime : String) (t : ℕ)
    (ht : t < n) :
    ¬ GenSig.longSignal (List.replicate n (1/2 : ℚ)) stds regime t := by
  intro hl
  have h1 : (List.replicate n (1/2 : ℚ)).getD t 0 > (regimeParams regime).long_threshold :=
    hl.1
  rw [getD_replicate n t _ ht] at h1
  have h2 := regimeParams_long_threshold_ge regime
  linarith

lemma flat_no_short (n : ℕ) (stds : List (Option ℚ)) (regime : String) (t : ℕ)
    (ht : t < n) :
    ¬ GenSig.shortSignal (List.replicate n (1/2 : ℚ)) stds regime t := by
  intro hs
  have h1 : (List.replicate n (1/2 : ℚ)).getD t 0
      < 1 - (regimeParams regime).short_threshold := hs.1
  rw [getD_replicate n t _ ht] at h1
  have h2 := regimeParams_short_threshold_ge regime
  linarith

lemma flat_longIdx_nil (n : ℕ) (stds : List (Option ℚ)) (regime : String) :
    GenSig.longIdx (List.replicate n (1/2 : ℚ)) stds regime = [] := by
  unfold GenSig.longIdx
  apply List.filter_eq_nil_iff.mpr
  intro t ht
  simp only [decide_eq_true_eq]
  rw [List.length_replicate] at ht
  exact flat_no_long n stds regime t (List.mem_range.mp ht)

lemma flat_shortIdx_nil (n : ℕ) (stds : List (Option ℚ)) (regime : String) :
    GenSig.shortIdx (List.replicate n (1/2 : ℚ)) stds regime = [] := by
  unfold GenSig.shortIdx
  apply List.filter_eq_nil_iff.mpr
  intro t ht
  simp only [decide_eq_true_eq]
  rw [List.length_replicate] at ht
  exact flat_no_short n stds regime t (List.mem_range.mp ht)

lemma clipQ_zero (maxPos : ℚ) (hmp : 0 ≤ maxPos) :
    clipQ (-maxPos) maxPos 0 = 0 := by
  unfold clipQ
  rw [max_eq_left (by linarith), min_eq_left hmp]

/-- Core of C3 (shared helper): on a constant `0.5` prediction series of
any positive length, with any regime label, any rolling-std series and any
momentum std, `generate_signals` returns the all-zero series: no long or
short condition can fire (the thresholds `≥ 0.7` are never reached from a
`0.5` prediction), so the signal array stays zero through the scalar
scalings, the clip and the momentum mask. -/
lemma generate_signals_flat_core (n : ℕ) (hn : 1 ≤ n) (maxPos : ℚ)
    (hmp : 0 ≤ maxPos) (regime : String) (stds : List (Option ℚ))
    (pmStd : Option ℚ) :
    generate_signals maxPos (List.replicate n (1/2 : ℚ)) regime stds pmStd
      = .ok (List.replicate n 0) := by
  have hl := flat_longIdx_nil n stds regime
  have hs := flat_shortIdx_nil n stds regime
  simp only [generate_signals, hl, hs, List.length_nil, List.length_replicate]
  rw [if_neg (by simp)]
  rw [if_neg (by simp)]
  rw [if_neg (by omega)]
  congr 1
  apply List.eq_replicate_iff.mpr
  constructor
  · simp [mkSeries]
  · intro b hb
    simp only [mkSeries, List.mem_map, List.mem_range] at hb
    obtain ⟨t, ht, rfl⟩ := hb
    have hz : GenSig.signals1 (List.replicate n (1/2 : ℚ)) stds regime t = 0 := by
      unfold GenSig.signals1
      rw [if_neg (flat_no_short n stds regime t ht),
        if_neg (flat_no_long n stds regime t ht)]
    simp only [hz, zero_mul, clipQ_zero maxPos hmp]
    exact ite_self 0

/-- C3: for every constant prediction series with all entries `0.5`
(any length `n ≥ 1`, any regime label), `generate_signals` returns the
all-zero signal series. -/
theorem generate_signals_flat (n : ℕ) (hn : 1 ≤ n) (maxPos : ℚ)
    (hmp : 0 ≤ maxPos) (regime : String) (stds : List (Option ℚ))
    (pmStd : Option ℚ) :
    generate_signals maxPos (List.replicate n (1/2 : ℚ)) regime stds pmStd
      = .ok (List.replicate n 0) :=
  generate_signals_flat_core n hn maxPos hmp regime stds pmStd

/-- C3 witness: `generate_signals_flat` at `n = 3`, bullish regime,
the actual rolling-std series of a constant input
(`NaN` at index 0, then `0`). -/
theorem generate_signals_flat_witness :
    1 ≤ 3 ∧ (0:ℚ) ≤ 1/5 ∧
    generate_signals (1/5) (List.replicate 3 (1/2 : ℚ)) "bullish"
      [none, some 0, some 0] (some 1) = .ok (List.replicate 3 0) :=
  ⟨by norm_num, by norm_num,
    generate_signals_flat 3 (by norm_num) (1/5) (by norm_num) "bullish"
      [none, some 0, some 0] (some 1)⟩

/-- Supporting fact for C2, lines 438-460 of the source: whenever the
long-signal mask is non-empty but not full, line 454 multiplies the
pandas Series `long_confidence` (length = number of firing indices, with
index equal to the selected positions) by the length-`n` numpy array
`position_scale`; pandas raises `ValueError` on the length mismatch, so
`generate_signals` errors instead of returning a series.  (The short
block of lines 463-480 errors the same way.)  Since index 0 can never
fire — `vol_ratio[0]` is NaN, failing the `vol_ratio < vol_threshold`
conjunct — a full firing mask is impossible, so the function can never
return a non-zero signal without raising. -/
lemma generate_signals_partial_fire_raises (maxPos : ℚ) (preds : List ℚ)
    (regime : String) (stds : List (Option ℚ)) (pmStd : Option ℚ)
    (hne : GenSig.longIdx preds stds regime ≠ [])
    (hlt : (GenSig.longIdx preds stds regime).length ≠ preds.length) :
    generate_signals maxPos preds regime stds pmStd = .error .valueErr := by
  simp only [generate_signals]
  rw [if_pos ⟨fun h0 => hne (List.eq_nil_of_length_eq_zero h0), hlt⟩]

/-- C2 (code bug): on the empty prediction series, `generate_signals`
does not return the empty all-zero series: line 483
(`float(vol_ratio.iloc[-1])`) raises `IndexError` on the empty
`vol_ratio` series, and no fallback catches it. -/
theorem generate_signals_empty_raises :
    generate_signals (1/5) [] "bullish" [] none = .error .indexErr := rfl

/-! ## Claims C4 and C5: `backtest` orchestration -/

/-- C4: whenever the feature preparer returns an empty (or missing)
feature matrix, `backtest` returns the empty `BTResult` — empty result
table and empty metrics mapping — and does not raise. -/
theorem backtest_empty_features (cfg : BTConfig) (env : BTEnv)
    (symbol mc : String) (h : env.prep1 = .ok 0) :
    backtest cfg env symbol mc = emptyBTResult symbol := by
  cases hIf : env.indFail
  · simp only [backtest, hIf, h]
    rfl
  · simp [backtest, hIf]

/-- C4 witness: `backtest_empty_features` on a concrete environment whose
feature preparer yields an empty matrix. -/
theorem backtest_empty_features_witness :
    (⟨200, false, some 0, some (1/10), some 0, some 50, .ok 0, .ok 7,
        .ok (List.replicate 6 (1/2)), List.replicate 6 none, none, .ok 1,
        .ok 1⟩ : BTEnv).prep1 = .ok 0 ∧
    backtest ⟨1/5, false, 10⟩
        ⟨200, false, some 0, some (1/10), some 0, some 50, .ok 0, .ok 7,
          .ok (List.replicate 6 (1/2)), List.replicate 6 none, none, .ok 1,
          .ok 1⟩ "AAPL" "normal" = emptyBTResult "AAPL" :=
  ⟨rfl, backtest_empty_features _ _ _ _ rfl⟩

/-- C5 (amended): the caller-supplied regime argument of `backtest` is
never used — the classification block always overwrites it — so the
result is identical for any two override values; the regime used is
always the one classified from the price-history statistics. -/
theorem backtest_override_unused (cfg : BTConfig) (env : BTEnv)
    (symbol o1 o2 : String) :
    backtest cfg env symbol o1 = backtest cfg env symbol o2 := rfl

/-- C5 counterexample: a concrete successful run whose statistics
classify as sideways; with the override `"bullish"` supplied, the
pipeline still uses (and reports) `"sideways"`, so the supplied regime is
not used. -/
theorem backtest_override_ignored_cex :
    (backtest ⟨1/5, false, 10⟩
        ⟨200, false, some 0, some (1/10), some 0, some 50, .ok 100, .ok 7,
          .ok (List.replicate 6 (1/2)), List.replicate 6 none, none, .ok 1,
          .ok 1⟩ "AAPL" "bullish").marketCondition = some "sideways" ∧
      (some "sideways" : Option String) ≠ some "bullish" := by
  refine ⟨?_, by simp⟩
  have hclass : classifyRegime (some 0) (some (1/10)) (some 0) (some 50)
      = .sideways := by
    norm_num [classifyRegime, clipQ, max_def, min_def]
  have hsig := generate_signals_flat_core 6 (by norm_num) (1/5) (by norm_num)
    "sideways" (List.replicate 6 none) none
  have halign : alignSignals false 10 10 5 200 (List.replicate 6 (0:ℚ))
      = .ok (10, 0 :: List.replicate 5 0) := rfl
  simp only [backtest, hclass, regimeString, hsig, halign]
  rfl

end ModelBacktester
